import Mathlib

set_option autoImplicit false

/-!
Shallow embedding of the dynamic-SQL query service (app/sql_builder.py,
app/schemas.py, app/trino_database.py) and proofs about the frozen claims.

Python dictionaries are modelled as association lists in insertion order,
Python strings as Lean strings, Python integers as Int.  Fallible code
(Python raise) is modelled with Except.  Python set iteration order is
implementation defined; where the source materialises a set into a list
(GetDataParams.get_all_columns) the embedding fixes first-occurrence order,
and no theorem below depends on that order.
-/

namespace DynSql

/-- Single-quote character (chr(39) in the source). -/
def sqc : Char := Char.ofNat 39

/-- Single-quote string. -/
def sq : String := String.singleton sqc

/-- Scalar Python values that flow through filters and query parameters:
strings, ints, bools and None.  (Floats are outside the embedded domain.) -/
inductive PyScalar where
  | s (v : String)
  | i (v : Int)
  | b (v : Bool)
  | null
deriving DecidableEq, Repr

/-- A Python value as used for FilterModel.values and query parameters:
either a scalar or a list of scalars. -/
inductive PyVal where
  | scalar (v : PyScalar)
  | list (vs : List PyScalar)
deriving DecidableEq, Repr

/-- app/schemas.py MeasureModel (function kept as its normalized string). -/
structure MeasureModel where
  field : String
  function : String
deriving DecidableEq, Repr

/-- app/schemas.py FilterModel. -/
structure FilterModel where
  field : String
  operator : String
  values : PyVal
deriving DecidableEq, Repr

/-- app/schemas.py SortModel. -/
structure SortModel where
  field : String
  order : String
deriving DecidableEq, Repr

/-- app/schemas.py GetDataParams.  page and page_size are Optional[int]
(schema defaults are some 1 / some 10). -/
structure GetDataParams where
  measures : List MeasureModel := []
  groupBy : List String := []
  filterBy : List FilterModel := []
  sortBy : List SortModel := []
  page : Option Int := some 1
  page_size : Option Int := some 10
deriving DecidableEq, Repr

/-- Python str.upper() for the ASCII identifiers of this code base,
character by character (String.toUpper is a non-structural loop that the
kernel cannot evaluate, so the embedding maps over the characters). -/
def pyUpper (s : String) : String :=
  String.mk (s.toList.map Char.toUpper)

/-- Python str.lower(), character by character. -/
def pyLower (s : String) : String :=
  String.mk (s.toList.map Char.toLower)

/-- Python truthiness of an Optional[int] value. -/
def optTruthy : Option Int → Bool
  | Option.none => false
  | some n => n != 0

/-- One column entry of a TableConfig (sql_builder.py _parse_table_configs). -/
structure ColumnDef where
  name : String
  field_aliases : List String := []
  field_type : Option String := Option.none
deriving DecidableEq, Repr

/-- One joinColumns entry of a relation: either an explicit source/target
pair, a dict with a single shared name, or a bare string. -/
inductive JoinCol where
  | srcTgt (source target : String)
  | named (name : String)
  | bare (name : String)
deriving DecidableEq, Repr

/-- One relations entry of a TableConfig. -/
structure RelationDef where
  name : String
  type : String := "LEFT"
  joinColumns : List JoinCol := []
deriving DecidableEq, Repr

/-- One aggregation entry of a TableConfig (field, function, optional alias;
the alias key is modelled as aliasName). -/
structure AggDef where
  field : String
  function : String := "SUM"
  aliasName : Option String := Option.none
deriving DecidableEq, Repr

/-- sql_builder.py TableConfig. -/
structure TableConfig where
  name : String
  priority : Int
  columns : List ColumnDef := []
  relations : List RelationDef := []
  mandatory_fields : List String := []
  aggregations : List AggDef := []
deriving DecidableEq, Repr

/-- The builder's table_configs dictionary: keys in insertion order. -/
abbrev Config := List (String × TableConfig)

/-- First-match lookup in an association list (Python dict access). -/
def dictGet (cfgs : Config) (k : String) : Option TableConfig :=
  match cfgs.find? (fun e => e.1 == k) with
  | some e => some e.2
  | Option.none => Option.none

/-- Python `k in d` on an association list. -/
def dictContains (cfgs : Config) (k : String) : Bool :=
  cfgs.any (fun e => e.1 == k)

/-- Python `d[k] = v`: replace in place if the key exists, else append. -/
def dictInsert (k : String) (v : TableConfig) : Config → Config
  | [] => [(k, v)]
  | (k2, v2) :: rest =>
    if k2 == k then (k, v) :: rest else (k2, v2) :: dictInsert k v rest

/-- Structured error record carried by ValidationError. -/
structure ErrorRec where
  field : String
  message : String
  expected : Option String := Option.none
  actual : Option String := Option.none
  value : Option String := Option.none
deriving DecidableEq, Repr

/-- Split a string at the first occurrence of a character, Python
s.split(ch, 1) when ch occurs (char-list worker). -/
def splitCharAux (ch : Char) : List Char → Option (List Char × List Char)
  | [] => Option.none
  | c :: cs =>
    if c = ch then some ([], cs)
    else
      match splitCharAux ch cs with
      | some p => some (c :: p.1, p.2)
      | Option.none => Option.none

/-- Split a string at the first occurrence of a character; none when the
character does not occur. -/
def splitFirstChar (ch : Char) (s : String) : Option (String × String) :=
  match splitCharAux ch s.toList with
  | some p => some (String.mk p.1, String.mk p.2)
  | Option.none => Option.none

/-- Python column.split(".", 1) as used all over sql_builder.py: the part
before and after the first dot, none when there is no dot. -/
def splitFirstDot (s : String) : Option (String × String) :=
  splitFirstChar '.' s

/-- Column reference without its table prefix (split(".", 1)[1] when
qualified, the reference itself otherwise). -/
def bareCol (s : String) : String :=
  match splitFirstDot s with
  | some p => p.2
  | Option.none => s

/-- Does a column definition match a requested name (by name or alias)? -/
def colMatch (col : String) (cd : ColumnDef) : Bool :=
  cd.name == col || cd.field_aliases.contains col

/-- SQLBuilder._validate_columns, per column. -/
def validateColumn (cfgs : Config) (column : String) : List ErrorRec :=
  match splitFirstDot column with
  | some p =>
    match dictGet cfgs p.1 with
    | some tc =>
      if tc.columns.any (colMatch p.2) then []
      else [{ field := "columns",
              message := "Column " ++ sq ++ column ++ sq ++ " does not exist in table " ++ sq ++ p.1 ++ sq }]
    | Option.none =>
      [{ field := "columns",
         message := "Table " ++ sq ++ p.1 ++ sq ++ " in column " ++ sq ++ column ++ sq ++ " not found in configurations" }]
  | Option.none =>
    if cfgs.any (fun e => e.2.columns.any (colMatch column)) then []
    else [{ field := "columns",
            message := "Column " ++ sq ++ column ++ sq ++ " not found in any table" }]

/-- SQLBuilder._validate_columns: accumulate the per-column errors in order. -/
def validate_columns (cfgs : Config) (columns : List String) : List ErrorRec :=
  columns.flatMap (validateColumn cfgs)

/-- Keep-first deduplication (worker with the set of already seen names). -/
def dedupAux (seen : List String) : List String → List String
  | [] => []
  | x :: xs =>
    if seen.contains x then dedupAux seen xs
    else x :: dedupAux (x :: seen) xs

/-- Deduplicate keeping the first occurrence of each element.  The source
uses list(set(...)) whose order is implementation defined; the embedding
fixes first-occurrence order (no theorem depends on the order). -/
def dedupKeepFirst (l : List String) : List String :=
  dedupAux [] l

/-- GetDataParams.get_all_columns: deduplicated union of groupBy, measure
fields, filter fields and sort fields. -/
def GetDataParams.get_all_columns (p : GetDataParams) : List String :=
  dedupKeepFirst
    (p.groupBy ++ p.measures.map (fun m => m.field)
      ++ p.filterBy.map (fun f => f.field) ++ p.sortBy.map (fun s => s.field))

/-- Modelled from the spec: GetDataParams.is_aggregated is called by
build_query but is not defined in the sources (schemas.py only defines
has_aggregations); the spec states aggregated iff measures is non-empty. -/
def GetDataParams.is_aggregated (p : GetDataParams) : Bool :=
  !p.measures.isEmpty

/-- Modelled from the spec: GetDataParams.is_distinct_only is called by the
builder but is not defined in the sources; the spec states distinct-only iff
groupBy is non-empty and measures, filterBy and sortBy are all empty. -/
def GetDataParams.is_distinct_only (p : GetDataParams) : Bool :=
  !p.groupBy.isEmpty && p.measures.isEmpty && p.filterBy.isEmpty && p.sortBy.isEmpty

/-- SQLBuilder._get_column_data_type: expected type of a column from the
configuration (None when unresolvable). -/
def get_column_data_type (cfgs : Config) (column : String)
    (cmap : List (String × TableConfig)) : Option String :=
  let tn : Option String :=
    match splitFirstDot column with
    | some p => some p.1
    | Option.none =>
      match cmap.find? (fun e => e.1 == column) with
      | some e => some e.2.name
      | Option.none => Option.none
  let cn : String := bareCol column
  match tn with
  | some t =>
    match dictGet cfgs t with
    | some tc =>
      match tc.columns.find? (colMatch cn) with
      | some cd => cd.field_type
      | Option.none => Option.none
    | Option.none => Option.none
  | Option.none => Option.none

/-- Python str(x) for the scalars of the embedded domain. -/
def pyStrScalar : PyScalar → String
  | .s v => v
  | .i n => toString n
  | .b v => if v then "True" else "False"
  | .null => "None"

/-- Python type(x).__name__ for the scalars of the embedded domain. -/
def pyTypeName : PyScalar → String
  | .s _ => "str"
  | .i _ => "int"
  | .b _ => "bool"
  | .null => "NoneType"

/-- Does a scalar pass isinstance against the expected engine type, per the
builder's type_mapping?  Python bool is a subclass of int, so bools pass the
integer and double precision checks. -/
def matchesExpected (expected : String) (v : PyScalar) : Bool :=
  match pyLower expected with
  | "varchar" => match v with | .s _ => true | _ => false
  | "integer" => match v with | .i _ => true | .b _ => true | _ => false
  | "double precision" => match v with | .i _ => true | .b _ => true | _ => false
  | "boolean" => match v with | .b _ => true | _ => false
  | _ => true

/-- Is the expected type one the builder's type_mapping knows? -/
def knownType (expected : String) : Bool :=
  pyLower expected == "varchar" || pyLower expected == "integer"
    || pyLower expected == "double precision" || pyLower expected == "boolean"

/-- Per-value type check inside BETWEEN / IN / INLIST loops (None values are
skipped). -/
def checkScalar (expected : String) (column : String) (i : Nat)
    (ctx : String) (v : PyScalar) : List ErrorRec :=
  match v with
  | .null => []
  | w =>
    if matchesExpected expected w then []
    else
      [{ field := "filters",
         message := "Invalid data type for column " ++ sq ++ column ++ sq
           ++ " in " ++ ctx ++ " at index " ++ toString i,
         expected := some expected,
         actual := some (pyTypeName w),
         value := some (pyStrScalar w) }]

/-- SQLBuilder._validate_filter_data_types, per filter at index i. -/
def validateFilter (cfgs : Config) (cmap : List (String × TableConfig))
    (i : Nat) (f : FilterModel) : List ErrorRec :=
  let column := f.field
  let op := pyUpper f.operator
  match get_column_data_type cfgs column cmap with
  | Option.none => []
  | some expected =>
    if !knownType expected then []
    else if op == "BETWEEN" then
      match f.values with
      | .list [a, b] =>
        checkScalar expected column i "BETWEEN range" a
          ++ checkScalar expected column i "BETWEEN range" b
      | _ =>
        [{ field := "filters",
           message := "Invalid BETWEEN range for column " ++ sq ++ column ++ sq
             ++ " at index " ++ toString i ++ ": must be a list of two values" }]
    else if op == "IN" || op == "INLIST" then
      match f.values with
      | .list (x :: xs) =>
        (x :: xs).flatMap (checkScalar expected column i "IN/INLIST")
      | _ =>
        [{ field := "filters",
           message := "Invalid IN/INLIST values for column " ++ sq ++ column ++ sq
             ++ " at index " ++ toString i ++ ": must be a non-empty list" }]
    else if op == "EQUAL" then
      match f.values with
      | .scalar _ => []
      | .list vs =>
        [{ field := "filters",
           message := "Invalid value for column " ++ sq ++ column ++ sq
             ++ " with EQUAL operator at index " ++ toString i ++ ": must be a single value",
           expected := some expected,
           actual := some "list",
           value := some (toString (repr (PyVal.list vs))) }]
    else
      [{ field := "filters",
         message := "Unsupported operator " ++ sq ++ op ++ sq ++ " for column "
           ++ sq ++ column ++ sq ++ " at index " ++ toString i
           ++ ". Supported operators: EQUAL, IN, INLIST, BETWEEN" }]

/-- Iteration of _validate_filter_data_types from a starting index. -/
def validate_filters_from (cfgs : Config) (cmap : List (String × TableConfig))
    (i : Nat) : List FilterModel → List ErrorRec
  | [] => []
  | f :: fs => validateFilter cfgs cmap i f ++ validate_filters_from cfgs cmap (i + 1) fs

/-- SQLBuilder._validate_filter_data_types. -/
def validate_filter_data_types (cfgs : Config) (filters : List FilterModel)
    (cmap : List (String × TableConfig)) : List ErrorRec :=
  validate_filters_from cfgs cmap 0 filters

/-- Python message.replace(pat, rep) worker (non-overlapping, left to right),
with fuel bounded by the string length. -/
def lPre : List Char → List Char → Bool
  | [], _ => true
  | _ :: _, [] => false
  | p :: ps, c :: cs => p == c && lPre ps cs

/-- replaceAll worker (fuel is an upper bound on the scanned length). -/
def replaceAllFuel (pat rep : List Char) : Nat → List Char → List Char
  | 0, s => s
  | _ + 1, [] => []
  | n + 1, c :: cs =>
    if !pat.isEmpty && lPre pat (c :: cs) then
      rep ++ replaceAllFuel pat rep n ((c :: cs).drop pat.length)
    else c :: replaceAllFuel pat rep n cs

/-- Python str.replace(pat, rep) for non-empty pat. -/
def pyReplaceAll (s pat rep : String) : String :=
  String.mk (replaceAllFuel pat.toList rep.toList s.toList.length s.toList)

/-- The measure-error rewrite in _validate_measures: field becomes
"measures" and "columns" is replaced by "measures" in the message (a no-op
on the actual messages, kept for fidelity). -/
def toMeasureErr (e : ErrorRec) : ErrorRec :=
  { e with field := "measures", message := pyReplaceAll e.message "columns" "measures" }

/-- SQLBuilder._validate_measures, per measure at index i. -/
def validateMeasure (cfgs : Config) (i : Nat) (m : MeasureModel) : List ErrorRec :=
  let columnErrors := validate_columns cfgs [m.field]
  let mapped := columnErrors.map toMeasureErr
  let fnErrors :=
    if ["SUM", "COUNT", "AVG", "MAX", "MIN"].contains (pyUpper m.function) then []
    else
      [{ field := "measures",
         message := "Invalid aggregation function " ++ sq ++ m.function ++ sq
           ++ " for field " ++ sq ++ m.field ++ sq ++ " at index " ++ toString i
           ++ ". Valid functions: SUM, COUNT, AVG, MAX, MIN" }]
  mapped ++ fnErrors

/-- Iteration of _validate_measures from a starting index. -/
def validate_measures_from (cfgs : Config) (i : Nat) : List MeasureModel → List ErrorRec
  | [] => []
  | m :: ms => validateMeasure cfgs i m ++ validate_measures_from cfgs (i + 1) ms

/-- SQLBuilder._validate_measures. -/
def validate_measures (cfgs : Config) (ms : List MeasureModel) : List ErrorRec :=
  validate_measures_from cfgs 0 ms

/-- Best table for an unqualified column: the configured table containing it
(by name or alias) with the numerically lowest priority, first wins on ties
(the strict < in the source keeps the first). -/
def bestTable (cfgs : Config) (col : String) : Option TableConfig :=
  cfgs.foldl
    (fun best e =>
      if e.2.columns.any (colMatch col) then
        match best with
        | Option.none => some e.2
        | some b => if e.2.priority < b.priority then some e.2 else some b
      else best)
    Option.none

/-- SQLBuilder._get_explicitly_requested_tables: fold one column into the
accumulated (set_a, column_to_table_map) pair. -/
def explicitStep (cfgs : Config) (acc : Config × Config) (column : String) :
    Config × Config :=
  match splitFirstDot column with
  | some p =>
    match dictGet cfgs p.1 with
    | some config => (dictInsert p.1 config acc.1, dictInsert p.2 config acc.2)
    | Option.none =>
      match cfgs.find? (fun e => pyLower e.2.name == pyLower p.1) with
      | some e => (dictInsert p.1 e.2 acc.1, dictInsert p.2 e.2 acc.2)
      | Option.none =>
        let temp : TableConfig := { name := p.1, priority := 999 }
        (dictInsert p.1 temp acc.1, dictInsert p.2 temp acc.2)
  | Option.none =>
    match bestTable cfgs column with
    | some best => (dictInsert best.name best acc.1, dictInsert column best acc.2)
    | Option.none => acc

/-- SQLBuilder._get_explicitly_requested_tables: returns (set_a, the
column-name to owning-table map). -/
def getExplicitTables (cfgs : Config) (p : GetDataParams) : Config × Config :=
  p.get_all_columns.foldl (explicitStep cfgs) ([], [])

/-- SQLBuilder._find_tables_to_join: forward one-hop relations of requested
tables, then any configured table with a relation targeting a requested
table. -/
def findTablesToJoin (cfgs : Config) (set_a : Config) : Config :=
  let jt := set_a
  let jt := set_a.foldl
    (fun jt e =>
      e.2.relations.foldl
        (fun jt rel =>
          match dictGet cfgs rel.name with
          | some tcfg =>
            if dictContains jt tcfg.name then jt else jt ++ [(tcfg.name, tcfg)]
          | Option.none => jt)
        jt)
    jt
  cfgs.foldl
    (fun jt e =>
      if dictContains jt e.1 then jt
      else if e.2.relations.any (fun rel => set_a.any (fun sa => rel.name == sa.2.name)) then
        jt ++ [(e.1, e.2)]
      else jt)
    jt

/-- Running minimum of Python min(values, key=priority): the strict <
keeps the first table on priority ties. -/
def minFrom (cur : TableConfig) : List TableConfig → TableConfig
  | [] => cur
  | t :: ts => minFrom (if t.priority < cur.priority then t else cur) ts

/-- First table of minimal priority, none for an empty list. -/
def minByPriority : List TableConfig → Option TableConfig
  | [] => Option.none
  | t :: ts => some (minFrom t ts)

/-- SQLBuilder._determine_main_table: lowest-priority table of the given
set, or the structured "No tables found" failure when the set is empty. -/
def determine_main_table (set_a : Config) : Except (List ErrorRec) TableConfig :=
  match minByPriority (set_a.map (fun e => e.2)) with
  | some t => Except.ok t
  | Option.none =>
    Except.error [{ field := "columns", message := "No tables found for requested columns" }]

/-- SQLBuilder._convert_join_type. -/
def convertJoinType (relation_type : String) : String :=
  let t := pyUpper relation_type
  if t == "ONE_TO_ONE" then "LEFT"
  else if t == "ONE_TO_MANY" then "LEFT"
  else if t == "MANY_TO_ONE" then "LEFT"
  else if t == "MANY_TO_MANY" then "LEFT"
  else if t == "LEFT" then "LEFT"
  else if t == "RIGHT" then "RIGHT"
  else if t == "INNER" then "INNER"
  else if t == "OUTER" then "FULL OUTER"
  else "LEFT"

/-- Equality predicates of a forward join (source.col = target.col). -/
def joinConds (srcName tgtName : String) (cols : List JoinCol) : List String :=
  cols.map fun
    | .srcTgt s t => srcName ++ "." ++ s ++ " = " ++ tgtName ++ "." ++ t
    | .named n => srcName ++ "." ++ n ++ " = " ++ tgtName ++ "." ++ n
    | .bare n => srcName ++ "." ++ n ++ " = " ++ tgtName ++ "." ++ n

/-- SQLBuilder._build_join_clause (none when the relation declares no join
columns). -/
def build_join_clause (src tgt : TableConfig) (rel : RelationDef) : Option String :=
  let conds := joinConds src.name tgt.name rel.joinColumns
  if conds.isEmpty then Option.none
  else
    some (convertJoinType rel.type ++ " JOIN " ++ tgt.name ++ " ON "
      ++ String.intercalate " AND " conds)

/-- SQLBuilder._build_join_clause_from_reverse: source/target columns are
swapped relative to the stored relation. -/
def build_join_clause_from_reverse (tgt src : TableConfig) (rel : RelationDef) :
    Option String :=
  let conds := rel.joinColumns.map fun
    | .srcTgt s t => src.name ++ "." ++ t ++ " = " ++ tgt.name ++ "." ++ s
    | .named n => src.name ++ "." ++ n ++ " = " ++ tgt.name ++ "." ++ n
    | .bare n => src.name ++ "." ++ n ++ " = " ++ tgt.name ++ "." ++ n
  if conds.isEmpty then Option.none
  else
    some (convertJoinType rel.type ++ " JOIN " ++ tgt.name ++ " ON "
      ++ String.intercalate " AND " conds)

/-- SQLBuilder._get_reverse_relations_for_table: (source table name,
original relation) for every configured relation pointing at the table. -/
def getReverseRelations (cfgs : Config) (t : TableConfig) :
    List (String × RelationDef) :=
  cfgs.flatMap fun e =>
    if e.1 == t.name then []
    else (e.2.relations.filter (fun r => r.name == t.name)).map (fun r => (e.2.name, r))

/-- SQLBuilder._find_join_path: scan already-joined tables; first a forward
relation to the target, else a reverse relation whose source is the joined
key.  The source returns the built clause immediately on the first matching
relation, even when that clause is None. -/
def findJoinPath (cfgs : Config) (target : TableConfig) :
    List (String × TableConfig) → Option String
  | [] => Option.none
  | (jname, jcfg) :: rest =>
    match jcfg.relations.find? (fun r => r.name == target.name) with
    | some rel => build_join_clause jcfg target rel
    | Option.none =>
      match (getReverseRelations cfgs target).find? (fun rr => rr.1 == jname) with
      | some rr => build_join_clause_from_reverse target jcfg rr.2
      | Option.none => findJoinPath cfgs target rest

/-- Stable insertion keeping original order on priority ties (Python sorted
is stable). -/
def insertStable (x : TableConfig) : List TableConfig → List TableConfig
  | [] => [x]
  | y :: ys => if y.priority ≤ x.priority then y :: insertStable x ys else x :: y :: ys

/-- Python sorted(tables, key=priority), stable. -/
def sortByPriority (l : List TableConfig) : List TableConfig :=
  l.foldl (fun acc x => insertStable x acc) []

/-- SQLBuilder._build_join_clauses main loop over the priority-sorted join
set; tables without a join path are skipped (warning only). -/
def joinLoop (cfgs : Config) : List TableConfig → List (String × TableConfig) → List String
  | [], _ => []
  | t :: ts, joined =>
    if dictContains joined t.name then joinLoop cfgs ts joined
    else
      match findJoinPath cfgs t joined with
      | some clause => clause :: joinLoop cfgs ts (joined ++ [(t.name, t)])
      | Option.none => joinLoop cfgs ts joined

/-- SQLBuilder._build_join_clauses. -/
def buildJoinClauses (cfgs : Config) (main : TableConfig) (join_tables : Config) :
    List String :=
  if join_tables.isEmpty then []
  else joinLoop cfgs (sortByPriority (join_tables.map (fun e => e.2))) [(main.name, main)]

/-- SQLBuilder._build_select_clause: the produced items (before the DISTINCT
wrap), given the lowest-priority table of the join set as main. -/
def selectItems (p : GetDataParams) (join_tables : Config) (mainJ : TableConfig) :
    List String :=
  if p.is_distinct_only then p.groupBy.map bareCol
  else if p.is_aggregated then
    mainJ.mandatory_fields
      ++ (join_tables.filter (fun e => e.1 != mainJ.name)).flatMap
           (fun e => e.2.mandatory_fields)
      ++ p.groupBy.map bareCol
      ++ p.measures.map (fun m =>
           let col := bareCol m.field
           let a := pyLower m.function ++ "_" ++ pyReplaceAll col "." "_"
           pyUpper m.function ++ "(" ++ col ++ ") AS " ++ a)
      ++ join_tables.flatMap (fun e =>
           (e.2.aggregations.filter
               (fun agg => e.2.columns.any (fun cd => cd.name == agg.field))).map
             (fun agg =>
               let fn := pyUpper agg.function
               let a := agg.aliasName.getD (pyLower fn ++ "_" ++ agg.field)
               fn ++ "(" ++ agg.field ++ ") AS " ++ a))
  else p.groupBy.map bareCol

/-- Final SELECT item list: fallback to * when empty, DISTINCT wrap for
distinct-only requests. -/
def selectItemsFinal (p : GetDataParams) (join_tables : Config) (mainJ : TableConfig) :
    List String :=
  let items := selectItems p join_tables mainJ
  let items := if items.isEmpty then ["*"] else items
  if p.is_distinct_only then ["DISTINCT " ++ String.intercalate ", " items] else items

/-- SQLBuilder._build_filter_condition: the per-filter condition and its
parameters.  The source checks only `values is not None` for EQUAL. -/
def build_filter_condition (f : FilterModel)
    (cmap : List (String × TableConfig)) : Option String × List PyVal :=
  -- the source also has `elif column in column_to_table_map: column = column`,
  -- a no-op kept out of the embedding
  let column := bareCol f.field
  let op := pyUpper f.operator
  if op == "BETWEEN" then
    match f.values with
    | .list [a, b] =>
      (some (column ++ " BETWEEN ? AND ?"), [PyVal.scalar a, PyVal.scalar b])
    | _ => (Option.none, [])
  else if op == "IN" || op == "INLIST" then
    match f.values with
    | .list (x :: xs) =>
      (some (column ++ " IN ("
         ++ String.intercalate "," ((x :: xs).map (fun _ => "?")) ++ ")"),
       (x :: xs).map PyVal.scalar)
    | _ => (Option.none, [])
  else if op == "EQUAL" then
    match f.values with
    | .scalar .null => (Option.none, [])
    | v => (some (column ++ " = ?"), [v])
  else (Option.none, [])

/-- SQLBuilder._build_where_clause: conditions in request order and the
accumulated parameters. -/
def buildWhere (p : GetDataParams) (cmap : List (String × TableConfig)) :
    List String × List PyVal :=
  let conds := p.filterBy.foldl
    (fun acc f =>
      match build_filter_condition f cmap with
      | (some c, vals) => (acc.1 ++ [c], acc.2 ++ vals)
      | (Option.none, _) => acc)
    ([], [])
  if conds.1.isEmpty then ([], conds.2)
  else (["(" ++ String.intercalate " AND " conds.1 ++ ")"], conds.2)

/-- Aggregate-call recognition of _build_group_by_clause: the text before
the first parenthesis, uppercased, is one of the five aggregate keywords. -/
def hasAggregates (select : List String) : Bool :=
  select.any fun item =>
    match splitFirstChar '(' item with
    | some pre => ["COUNT", "SUM", "AVG", "MAX", "MIN"].contains (pyUpper pre.1)
    | Option.none => false

/-- GROUP BY item list: the join-set main table's mandatory fields, then the
other joined tables' mandatory fields (appended verbatim), then the
requested groupBy columns, each skipped when already present. -/
def buildGroupByItems (p : GetDataParams) (join_tables : Config)
    (mainJ : TableConfig) : List String :=
  let items := mainJ.mandatory_fields
    ++ (join_tables.filter (fun e => e.1 != mainJ.name)).flatMap
         (fun e => e.2.mandatory_fields)
  p.groupBy.foldl
    (fun acc col =>
      let c := bareCol col
      if acc.contains c then acc else acc ++ [c])
    items

/-- SQLBuilder._build_group_by_clause: the resulting group_by list (empty
when the clause is not emitted); re-determines the main table over the join
set as the source does. -/
def build_group_by_items (p : GetDataParams) (join_tables : Config)
    (select : List String) : Except (List ErrorRec) (List String) :=
  if !p.is_aggregated then Except.ok []
  else if !hasAggregates select then Except.ok []
  else
    match determine_main_table join_tables with
    | Except.error e => Except.error e
    | Except.ok mainJ => Except.ok (buildGroupByItems p join_tables mainJ)

/-- SQLBuilder._build_order_by_clause: the order_by string ("" when absent). -/
def buildOrderBy (p : GetDataParams) : String :=
  if p.sortBy.isEmpty then ""
  else
    "ORDER BY " ++ String.intercalate ", "
      (p.sortBy.map (fun s => bareCol s.field ++ " " ++ s.order))

/-- The builder's query_parts dictionary after _reset: limit and offset keys
are absent (none). -/
structure QueryParts where
  select : List String := []
  fromT : String := ""
  joins : List String := []
  whereParts : List String := []
  group_by : List String := []
  order_by : String := ""
  limit : Option String := Option.none
  offset : Option String := Option.none
deriving DecidableEq, Repr

/-- SQLBuilder._build_pagination: LIMIT = page_size and OFFSET =
(page-1)*page_size (emitted only when positive), only when both page and
page_size are truthy. -/
def build_pagination (p : GetDataParams) (qp : QueryParts) : QueryParts :=
  match p.page, p.page_size with
  | some pg, some ps =>
    if pg != 0 && ps != 0 then
      let offv := (pg - 1) * ps
      let qp := { qp with limit := some (toString ps) }
      if offv > 0 then { qp with offset := some (toString offv) } else qp
    else qp
  | _, _ => qp

/-- SQLBuilder._construct_final_query as the ordered clause list (the query
text is these parts joined by single spaces).  The limit/offset emission
keeps the source's string-truthiness checks. -/
def construct_final_query_parts (qp : QueryParts) : List String :=
  ["SELECT " ++ String.intercalate ", " qp.select, "FROM " ++ qp.fromT]
    ++ qp.joins
    ++ (if qp.whereParts.isEmpty then []
        else ["WHERE " ++ String.intercalate " AND " qp.whereParts])
    ++ (if qp.group_by.isEmpty then []
        else ["GROUP BY " ++ String.intercalate ", " qp.group_by])
    ++ (if qp.order_by == "" then [] else [qp.order_by])
    ++ (match qp.limit with
        | some s => if s == "" then [] else ["LIMIT " ++ s]
        | Option.none => [])
    ++ (match qp.offset with
        | some s => if s == "" then [] else ["OFFSET " ++ s]
        | Option.none => [])

/-- SQLBuilder._construct_final_query. -/
def construct_final_query (qp : QueryParts) : String :=
  String.intercalate " " (construct_final_query_parts qp)

/-- The optional WHERE part reused by every count query. -/
def countWherePart (qp : QueryParts) : List String :=
  if qp.whereParts.isEmpty then []
  else ["WHERE " ++ String.intercalate " AND " qp.whereParts]

/-- SQLBuilder._build_simple_count_query. -/
def build_simple_count_query (main : TableConfig) (qp : QueryParts)
    (count_parameters : List PyVal) : String × List PyVal :=
  (String.intercalate " "
     (["SELECT COUNT(*)", "FROM " ++ main.name] ++ qp.joins ++ countWherePart qp),
   count_parameters)

/-- SQLBuilder._build_distinct_count_query. -/
def build_distinct_count_query (main : TableConfig) (qp : QueryParts)
    (p : GetDataParams) (count_parameters : List PyVal)
    (is_distinct_only : Bool) : String × List PyVal :=
  let count_select :=
    if is_distinct_only && !p.groupBy.isEmpty then
      let group_cols := p.groupBy.map bareCol
      match group_cols with
      | [c] => "COUNT(DISTINCT " ++ c ++ ")"
      | cs =>
        "COUNT(DISTINCT ("
          ++ String.intercalate (" || " ++ sq ++ "|" ++ sq ++ " || ") cs ++ "))"
    else "COUNT(*)"
  (String.intercalate " "
     (["SELECT " ++ count_select, "FROM " ++ main.name] ++ qp.joins ++ countWherePart qp),
   count_parameters)

/-- SQLBuilder._build_separate_count_query. -/
def build_separate_count_query (main : TableConfig) (qp : QueryParts)
    (p : GetDataParams) (count_parameters : List PyVal) : String × List PyVal :=
  if !p.groupBy.isEmpty then
    (String.intercalate " "
       (["SELECT DISTINCT " ++ String.intercalate ", " (p.groupBy.map bareCol),
         "FROM " ++ main.name] ++ qp.joins ++ countWherePart qp),
     count_parameters)
  else build_simple_count_query main qp count_parameters

/-- SQLBuilder._build_estimate_count_query: the fixed parameterless marker
query. -/
def build_estimate_count_query : String × List PyVal :=
  ("SELECT -1 AS estimated_count", [])

/-- SQLBuilder._build_count_query: recompute the WHERE parameters from
filterBy, then dispatch on the configured strategy (unknown strategies fall
back to simple). -/
def build_count_query (strat : String) (main : TableConfig) (qp : QueryParts)
    (cmap : List (String × TableConfig)) (p : GetDataParams) : String × List PyVal :=
  let count_parameters := p.filterBy.flatMap (fun f => (build_filter_condition f cmap).2)
  if strat == "simple" then build_simple_count_query main qp count_parameters
  else if strat == "distinct" then
    build_distinct_count_query main qp p count_parameters p.is_distinct_only
  else if strat == "separate" then build_separate_count_query main qp p count_parameters
  else if strat == "estimate" then build_estimate_count_query
  else build_simple_count_query main qp count_parameters

/-- Everything the building phase of build_query produces (after _reset):
the final query_parts, the accumulated parameters, the FROM-anchoring main
table, the join set and the column-to-table map. -/
structure BuildPhaseOut where
  qp : QueryParts
  prms : List PyVal
  main : TableConfig
  join_tables : Config
  cmap : Config
deriving DecidableEq, Repr

instance : Inhabited BuildPhaseOut :=
  ⟨{ qp := {}, prms := [], main := { name := "", priority := 0 },
     join_tables := [], cmap := [] }⟩

/-- build_query lines 308-324: reset, table resolution, clause building.
The main table anchoring FROM is determined over set_a; the select and
group-by builders re-determine a main table over the full join set, as the
source does. -/
def buildPhase (cfgs : Config) (p : GetDataParams) :
    Except (List ErrorRec) BuildPhaseOut :=
  let sc := getExplicitTables cfgs p
  let set_a := sc.1
  let cmap := sc.2
  let join_tables := findTablesToJoin cfgs set_a
  match determine_main_table set_a with
  | Except.error e => Except.error e
  | Except.ok main =>
    match determine_main_table join_tables with
    | Except.error e => Except.error e
    | Except.ok mainJ =>
      let select := selectItemsFinal p join_tables mainJ
      let wc := buildWhere p cmap
      match build_group_by_items p join_tables select with
      | Except.error e => Except.error e
      | Except.ok gb =>
        let qp : QueryParts :=
          { select := select, fromT := main.name,
            joins := buildJoinClauses cfgs main join_tables,
            whereParts := wc.1, group_by := gb,
            order_by := buildOrderBy p,
            limit := Option.none, offset := Option.none }
        let qp := build_pagination p qp
        Except.ok ⟨qp, wc.2, main, join_tables, cmap⟩

/-- build_query lines 289-306: the accumulated validation errors (columns,
then filter data types, then measures). -/
def validation_errors (cfgs : Config) (p : GetDataParams) : List ErrorRec :=
  let column_errors := validate_columns cfgs p.get_all_columns
  let filter_errors :=
    if p.filterBy.isEmpty then []
    else validate_filter_data_types cfgs p.filterBy (getExplicitTables cfgs p).2
  let measure_errors :=
    if p.measures.isEmpty then [] else validate_measures cfgs p.measures
  column_errors ++ filter_errors ++ measure_errors

/-- The four values build_query returns on success. -/
structure BuildResult where
  main_query : String
  main_parameters : List PyVal
  count_query : String
  count_parameters : List PyVal
deriving DecidableEq, Repr

/-- SQLBuilder.build_query as a function of the configuration and count
strategy: validation first (raising the accumulated errors), then the
building phase, then the count query. -/
def build_query_result (cfgs : Config) (strat : String) (p : GetDataParams) :
    Except (List ErrorRec) BuildResult :=
  let errs := validation_errors cfgs p
  if errs.isEmpty then
    match buildPhase cfgs p with
    | Except.ok out =>
      let cq := build_count_query strat out.main out.qp out.cmap p
      Except.ok
        { main_query := construct_final_query out.qp,
          main_parameters := out.prms,
          count_query := cq.1,
          count_parameters := cq.2 }
    | Except.error e => Except.error e
  else Except.error errs

/-- The mutable SQLBuilder instance state. -/
structure Builder where
  query_parts : QueryParts := {}
  parameters : List PyVal := []
  table_configs : Config := []
  count_strategy : String := "simple"
deriving DecidableEq, Repr

/-- The builder state after one build_query call: validation failure leaves
the state untouched (the raise precedes _reset); a building-phase failure
leaves the freshly reset state; success leaves the built query_parts and
parameters. -/
def build_query_final_builder (b : Builder) (p : GetDataParams) : Builder :=
  let errs := validation_errors b.table_configs p
  if errs.isEmpty then
    match buildPhase b.table_configs p with
    | Except.ok out => { b with query_parts := out.qp, parameters := out.prms }
    | Except.error _ => { b with query_parts := {}, parameters := [] }
  else b

/-- SQLBuilder.build_query on an instance: the updated instance state and
the result (error = the raised ValidationError's list). -/
def build_query (b : Builder) (p : GetDataParams) :
    Builder × Except (List ErrorRec) BuildResult :=
  (build_query_final_builder b p, build_query_result b.table_configs b.count_strategy p)

/-- A result row: a Python dict in insertion order. -/
abbrev Row := List (String × PyVal)

/-- Python row.get("estimated_count") == -1 (missing key and non-int values
compare unequal; Python True == 1 and False == 0, never -1). -/
def estMarkerNegOne (row : Row) : Bool :=
  match row.find? (fun e => e.1 == "estimated_count") with
  | some (_, PyVal.scalar (PyScalar.i n)) => n == -1
  | _ => false

/-- SQLBuilder.get_count_from_results.  The Except layer models the
StopIteration raised by next(iter(...)) on an empty first row; the Option
layer models the int-or-None return value (None = the implicit fall-through
return). -/
def get_count_from_results (b : Builder) (count_result main_results : List Row)
    (p : GetDataParams) : Except Unit (Option PyVal) :=
  match count_result with
  | [] => Except.ok (some (PyVal.scalar (PyScalar.i 0)))
  | row :: rest =>
    if b.count_strategy == "separate" then
      Except.ok (some (PyVal.scalar (PyScalar.i ((row :: rest).length : Int))))
    else if b.count_strategy == "estimate" then
      if estMarkerNegOne row then
        match p.page, p.page_size with
        | some pg, some ps =>
          if pg != 0 && ps != 0 then
            if ((main_results.length : Int) == ps) then
              Except.ok (some (PyVal.scalar (PyScalar.i (pg * ps + ps))))
            else
              Except.ok (some (PyVal.scalar (PyScalar.i ((pg - 1) * ps + (main_results.length : Int)))))
          else Except.ok (some (PyVal.scalar (PyScalar.i (main_results.length : Int))))
        | _, _ => Except.ok (some (PyVal.scalar (PyScalar.i (main_results.length : Int))))
      else Except.ok Option.none
    else
      match row with
      | [] => Except.error ()
      | kv :: _ => Except.ok (some kv.2)

/-- Python s.replace(chr(39), chr(39)+chr(39)): double embedded single
quotes. -/
def escapeQuotes (s : String) : String :=
  String.mk (s.toList.flatMap (fun c => if c = sqc then [sqc, sqc] else [c]))

/-- Escaped literal rendering of one scalar in _format_query_with_params
(strings quoted with doubled quotes; ints as str; bool is an int subclass in
Python and renders as True/False; None falls to the str() branch). -/
def renderScalar : PyScalar → String
  | .s v => sq ++ escapeQuotes v ++ sq
  | .i n => toString n
  | .b v => if v then "True" else "False"
  | .null => "None"

/-- Escaped literal rendering of one parameter in _format_query_with_params
(lists render as a comma-joined literal sequence). -/
def renderParam : PyVal → String
  | .scalar v => renderScalar v
  | .list vs => String.intercalate "," (vs.map renderScalar)

/-- Replace the first question-mark character, Python s.replace("?", r, 1)
on char lists. -/
def replaceFirstQ (rep : List Char) : List Char → List Char
  | [] => []
  | c :: cs => if c = '?' then rep ++ cs else c :: replaceFirstQ rep cs

/-- trino_database.py _format_query_with_params on char lists: while the
text contains a question mark and parameters remain, replace the first
question mark of the whole current text with the next parameter's rendering. -/
def formatQueryL (s : List Char) : List PyVal → List Char
  | [] => s
  | pr :: rest =>
    if s.contains '?' then formatQueryL (replaceFirstQ (renderParam pr).toList s) rest
    else s

/-- trino_database.py _format_query_with_params. -/
def format_query_with_params (query : String) (params : List PyVal) : String :=
  String.mk (formatQueryL query.toList params)

/-- Modelled from the spec (refinement side for the substitution claim):
"walk the SQL text, replacing each ? occurrence left-to-right with the next
parameter's escaped literal rendering", i.e. the placeholders are those of
the original text, each bound to the parameter of the same rank; extra
placeholders stay, extra parameters are ignored. -/
def substSpec (s : List Char) : List PyVal → List Char
  | [] => s
  | pr :: rest =>
    match splitCharAux '?' s with
    | some pq => pq.1 ++ (renderParam pr).toList ++ substSpec pq.2 rest
    | Option.none => s

/-- Boolean string-prefix test on the underlying char lists. -/
def strStartsWith (s pat : String) : Bool :=
  lPre pat.toList s.toList

/-- Substring occurrence on char lists. -/
def containsSub (pat : List Char) : List Char → Bool
  | [] => lPre pat []
  | c :: cs => lPre pat (c :: cs) || containsSub pat cs

/-- Boolean substring test. -/
def strContains (s pat : String) : Bool :=
  containsSub pat.toList s.toList

/-- The newwpnl table of the test fixture configuration
(tests/conftest.py SAMPLE_YAML_CONFIG). -/
def tblNewwpnl : TableConfig :=
  { name := "newwpnl", priority := 1,
    columns :=
      [{ name := "uid", field_aliases := ["user_id"], field_type := some "INTEGER" },
       { name := "uidtype", field_aliases := ["user_type"], field_type := some "VARCHAR" },
       { name := "businessdate", field_aliases := ["bdate", "date"], field_type := some "INTEGER" },
       { name := "newpnl", field_aliases := ["profit_loss", "pnl"], field_type := some "DOUBLE PRECISION" }],
    relations := [{ name := "users", type := "LEFT", joinColumns := [JoinCol.srcTgt "uid" "id"] }],
    mandatory_fields := ["uidtype", "businessdate"],
    aggregations := [{ field := "newpnl", function := "SUM", aliasName := some "total_newpnl" }] }

/-- The users table of the test fixture configuration. -/
def tblUsers : TableConfig :=
  { name := "users", priority := 2,
    columns :=
      [{ name := "id", field_type := some "INTEGER" },
       { name := "name", field_aliases := ["username"], field_type := some "VARCHAR" }],
    relations := [{ name := "profile", type := "LEFT", joinColumns := [JoinCol.named "id"] }],
    mandatory_fields := ["id"] }

/-- The profile table of the test fixture configuration. -/
def tblProfile : TableConfig :=
  { name := "profile", priority := 3,
    columns :=
      [{ name := "id", field_type := some "INTEGER" },
       { name := "email", field_type := some "VARCHAR" }] }

/-- The test fixture table_configs dictionary. -/
def sampleCfg : Config :=
  [("newwpnl", tblNewwpnl), ("users", tblUsers), ("profile", tblProfile)]

/-- Distinct-only request with groupBy = [uidtype]. -/
def pDistinct : GetDataParams := { groupBy := ["uidtype"] }

/-- Distinct-only request with two groupBy columns. -/
def pDistinct2 : GetDataParams := { groupBy := ["uidtype", "businessdate"] }

/-- Request on page 2 with page size 10. -/
def pPage2 : GetDataParams :=
  { groupBy := ["uidtype"], page := some 2, page_size := some 10 }

/-- Request with an unresolvable measure field and an unresolvable filter
field. -/
def pBadBoth : GetDataParams :=
  { measures := [{ field := "nope1", function := "SUM" }],
    filterBy := [{ field := "nope2", operator := "EQUAL", values := PyVal.scalar (PyScalar.i 5) }] }

/-- Request naming no column at all. -/
def pEmpty : GetDataParams := {}

/-- Extracted building-phase output for pPage2 (witness helper). -/
def outPage2 : BuildPhaseOut := (buildPhase sampleCfg pPage2).toOption.getD default

/-- Extracted building-phase output for pDistinct (witness helper). -/
def outDistinct : BuildPhaseOut := (buildPhase sampleCfg pDistinct).toOption.getD default

/-- Single-table config whose only table has no mandatory fields (group-by
counterexample a). -/
def cfgA : Config :=
  [("t", { name := "t", priority := 1, columns := [{ name := "x", field_type := some "INTEGER" }] })]

/-- Aggregated request on cfgA. -/
def pAggA : GetDataParams := { measures := [{ field := "x", function := "SUM" }] }

/-- Two tables sharing the mandatory field k (group-by counterexample b). -/
def cfgB : Config :=
  [("t1", { name := "t1", priority := 1,
            columns := [{ name := "k" }, { name := "x", field_type := some "INTEGER" }],
            relations := [{ name := "t2", type := "LEFT", joinColumns := [JoinCol.named "k"] }],
            mandatory_fields := ["k"] }),
   ("t2", { name := "t2", priority := 2, columns := [{ name := "k" }],
            mandatory_fields := ["k"] })]

/-- Aggregated request on cfgB. -/
def pAggB : GetDataParams := { measures := [{ field := "x", function := "SUM" }] }

/-- Requested table t1 has priority 2 and joins t2 of priority 1, so the
group-by main table differs from the FROM anchor (counterexample c). -/
def cfgC : Config :=
  [("t1", { name := "t1", priority := 2,
            columns := [{ name := "x", field_type := some "INTEGER" }, { name := "m1" }],
            relations := [{ name := "t2", type := "LEFT", joinColumns := [JoinCol.named "j"] }],
            mandatory_fields := ["m1"] }),
   ("t2", { name := "t2", priority := 1, columns := [{ name := "j" }],
            mandatory_fields := ["m2"] })]

/-- Aggregated request on cfgC. -/
def pAggC : GetDataParams := { measures := [{ field := "x", function := "SUM" }] }

/-- Extracted building-phase outputs for the group-by counterexamples. -/
def outAggA : BuildPhaseOut := (buildPhase cfgA pAggA).toOption.getD default

/-- Extracted building-phase output for cfgB. -/
def outAggB : BuildPhaseOut := (buildPhase cfgB pAggB).toOption.getD default

/-- Extracted building-phase output for cfgC. -/
def outAggC : BuildPhaseOut := (buildPhase cfgC pAggC).toOption.getD default

instance {ε α : Type} [DecidableEq ε] [DecidableEq α] : DecidableEq (Except ε α) := fun a b =>
  match a, b with
  | Except.ok x, Except.ok y =>
    if h : x = y then Decidable.isTrue (by rw [h])
    else Decidable.isFalse (by intro hh; cases hh; exact h rfl)
  | Except.error x, Except.error y =>
    if h : x = y then Decidable.isTrue (by rw [h])
    else Decidable.isFalse (by intro hh; cases hh; exact h rfl)
  | Except.ok _, Except.error _ => Decidable.isFalse (by intro hh; cases hh)
  | Except.error _, Except.ok _ => Decidable.isFalse (by intro hh; cases hh)

instance : Inhabited BuildResult :=
  ⟨{ main_query := "", main_parameters := [], count_query := "", count_parameters := [] }⟩

/-- Extracted build result for pDistinct under the simple strategy. -/
def resSimple : BuildResult :=
  (build_query_result sampleCfg "simple" pDistinct).toOption.getD default

/-- Extracted build result for pDistinct under the distinct strategy. -/
def resDistinct : BuildResult :=
  (build_query_result sampleCfg "distinct" pDistinct).toOption.getD default

/-- Extracted build result for pDistinct2 under the distinct strategy. -/
def resDistinct2 : BuildResult :=
  (build_query_result sampleCfg "distinct" pDistinct2).toOption.getD default

/-- Extracted build result for pDistinct under the separate strategy. -/
def resSeparate : BuildResult :=
  (build_query_result sampleCfg "separate" pDistinct).toOption.getD default

/-- Extracted build result for pDistinct under the estimate strategy. -/
def resEstimate : BuildResult :=
  (build_query_result sampleCfg "estimate" pDistinct).toOption.getD default

/-- A builder configured with the estimate count strategy. -/
def bEst : Builder := { count_strategy := "estimate" }

/-- A count-result row carrying the estimate sentinel. -/
def rowEst : Row := [("estimated_count", PyVal.scalar (PyScalar.i (-1)))]

/-- A count-result row whose estimated_count is not the sentinel. -/
def rowNotEst : Row := [("estimated_count", PyVal.scalar (PyScalar.i 7))]

/-- Ten main-result rows. -/
def mr10 : List Row := List.replicate 10 []

/-- Five main-result rows. -/
def mr5 : List Row := List.replicate 5 []

/-- Does a filter match one of the three condition-producing shapes actually
implemented by _build_filter_condition (EQUAL only requires a non-None
value)? -/
def filterFormMatches (f : FilterModel) : Bool :=
  let op := pyUpper f.operator
  (op == "BETWEEN" && (match f.values with | .list [_, _] => true | _ => false))
    || ((op == "IN" || op == "INLIST")
          && (match f.values with | .list (_ :: _) => true | _ => false))
    || (op == "EQUAL" && f.values != PyVal.scalar PyScalar.null)

/-- The set of explicitly requested tables of a request. -/
def setA (cfgs : Config) (p : GetDataParams) : Config :=
  (getExplicitTables cfgs p).1

/-- The column-name to owning-table map of a request. -/
def cmapOf (cfgs : Config) (p : GetDataParams) : Config :=
  (getExplicitTables cfgs p).2

/-- The full join set of a request. -/
def joinSet (cfgs : Config) (p : GetDataParams) : Config :=
  findTablesToJoin cfgs (setA cfgs p)

/-- A lowercase-operator EQUAL filter on a qualified column. -/
def fEqSeven : FilterModel :=
  { field := "t.c1", operator := "equal", values := PyVal.scalar (PyScalar.i 7) }

/-! Helper lemmas. -/

theorem two_mem_le_length {α : Type} {l : List α} {a b : α}
    (ha : a ∈ l) (hb : b ∈ l) (hne : a ≠ b) : 2 ≤ l.length := by
  induction l with
  | nil => cases ha
  | cons x xs ih =>
    rcases List.mem_cons.mp ha with rfl | ha2
    · rcases List.mem_cons.mp hb with rfl | hb2
      · exact absurd rfl hne
      · have := List.length_pos.mpr (List.ne_nil_of_mem hb2)
        simpa [List.length_cons] using Nat.succ_le_succ this
    · have := List.length_pos.mpr (List.ne_nil_of_mem ha2)
      simpa [List.length_cons] using Nat.succ_le_succ this

theorem mem_dedupAux {x : String} {seen l : List String} (h : x ∈ l) :
    x ∈ seen ∨ x ∈ dedupAux seen l := by
  induction l generalizing seen with
  | nil => cases h
  | cons y ys ih =>
    simp only [dedupAux]
    split
    · next hy =>
      rcases List.mem_cons.mp h with rfl | h2
      · exact Or.inl (by simpa using hy)
      · exact ih h2
    · next hy =>
      rcases List.mem_cons.mp h with rfl | h2
      · exact Or.inr (List.mem_cons_self _ _)
      · rcases @ih (y :: seen) h2 with h3 | h3
        · rcases List.mem_cons.mp h3 with rfl | h4
          · exact Or.inr (List.mem_cons_self _ _)
          · exact Or.inl h4
        · exact Or.inr (List.mem_cons_of_mem _ h3)

theorem mem_dedupKeepFirst {x : String} {l : List String} (h : x ∈ l) :
    x ∈ dedupKeepFirst l := by
  rcases @mem_dedupAux x [] l h with h2 | h2
  · cases h2
  · exact h2

theorem validateColumn_field {cfgs : Config} {c : String} :
    ∀ e ∈ validateColumn cfgs c, e.field = "columns" := by
  intro e he
  unfold validateColumn at he
  split at he
  · split at he
    · split at he
      · cases he
      · simp only [List.mem_singleton] at he; subst he; rfl
    · simp only [List.mem_singleton] at he; subst he; rfl
  · split at he
    · cases he
    · simp only [List.mem_singleton] at he; subst he; rfl

theorem mem_validate_columns {cfgs : Config} {cols : List String} {c : String}
    {e : ErrorRec} (hc : c ∈ cols) (he : e ∈ validateColumn cfgs c) :
    e ∈ validate_columns cfgs cols := by
  unfold validate_columns
  exact List.mem_flatMap.mpr ⟨c, hc, he⟩

theorem validate_columns_single (cfgs : Config) (c : String) :
    validate_columns cfgs [c] = validateColumn cfgs c := by
  simp [validate_columns]

theorem measure_err_exists {cfgs : Config} {ms : List MeasureModel}
    {m : MeasureModel} (hm : m ∈ ms)
    (hne : validate_columns cfgs [m.field] ≠ []) :
    ∀ i, ∃ e ∈ validate_measures_from cfgs i ms, e.field = "measures" := by
  induction ms with
  | nil => cases hm
  | cons m0 ms0 ih =>
    intro i
    rcases List.mem_cons.mp hm with rfl | h2
    · rcases List.exists_mem_of_ne_nil _ hne with ⟨e0, he0⟩
      refine ⟨toMeasureErr e0, ?_, rfl⟩
      simp only [validate_measures_from, validateMeasure]
      exact List.mem_append_left _ (List.mem_append_left _ (List.mem_map_of_mem _ he0))
    · rcases ih h2 (i + 1) with ⟨e0, he0, hf0⟩
      exact ⟨e0, List.mem_append_right _ he0, hf0⟩

/-! Claim theorems. -/

/-- Claim C1: when some measure field and some filter field both fail column
resolution, build_query raises one structured ValidationError whose record
list holds at least one record for the measure problem (field "measures")
and one for the filter-field problem (field "columns"), at least two records
in total, and no SQL is produced. -/
theorem build_query_accumulates_both_failures (b : Builder) (p : GetDataParams)
    (hm : ∃ m ∈ p.measures, validate_columns b.table_configs [m.field] ≠ [])
    (hf : ∃ f ∈ p.filterBy, validate_columns b.table_configs [f.field] ≠ []) :
    ∃ errs, (build_query b p).2 = Except.error errs ∧
      (∃ e ∈ errs, e.field = "measures") ∧
      (∃ e ∈ errs, e.field = "columns") ∧
      2 ≤ errs.length := by
  rcases hm with ⟨m, hmm, hmne⟩
  rcases hf with ⟨f, hfm, hfne⟩
  set cfgs := b.table_configs with hcfgs
  -- the filter field's resolution error, raised by the shared column pass
  rw [validate_columns_single] at hfne
  rcases List.exists_mem_of_ne_nil _ hfne with ⟨e1, he1⟩
  have he1f : e1.field = "columns" := validateColumn_field e1 he1
  have hmemall : f.field ∈ p.get_all_columns := by
    apply mem_dedupKeepFirst
    refine List.mem_append_left _ ?_
    refine List.mem_append_right _ ?_
    exact List.mem_map_of_mem _ hfm
  have he1col : e1 ∈ validate_columns cfgs p.get_all_columns :=
    mem_validate_columns hmemall he1
  -- the measure field's resolution error, raised again by the measure pass
  rcases measure_err_exists hmm hmne 0 with ⟨e2, he2, he2f⟩
  have hmeas : p.measures.isEmpty = false := by
    cases hp : p.measures with
    | nil => rw [hp] at hmm; cases hmm
    | cons a as => rfl
  have he1errs : e1 ∈ validation_errors cfgs p := by
    unfold validation_errors
    exact List.mem_append_left _ (List.mem_append_left _ he1col)
  have he2errs : e2 ∈ validation_errors cfgs p := by
    unfold validation_errors
    refine List.mem_append_right _ ?_
    rw [hmeas]
    simpa [validate_measures] using he2
  have hne12 : e1 ≠ e2 := fun h => by
    rw [h, he2f] at he1f; exact absurd he1f (by decide)
  have hlen : 2 ≤ (validation_errors cfgs p).length :=
    two_mem_le_length he1errs he2errs hne12
  have hnotempty : (validation_errors cfgs p).isEmpty = false := by
    rcases h : (validation_errors cfgs p).isEmpty with _ | _
    · rfl
    · exfalso
      have h0 : validation_errors cfgs p = [] := by
        cases hl : validation_errors cfgs p with
        | nil => rfl
        | cons a as => rw [hl] at h; cases h
      rw [h0] at he1errs; cases he1errs
  refine ⟨validation_errors cfgs p, ?_, ⟨e2, he2errs, he2f⟩, ⟨e1, he1errs, he1f⟩, hlen⟩
  show build_query_result cfgs b.count_strategy p = Except.error (validation_errors cfgs p)
  simp only [build_query_result, hnotempty]
  simp

/-- Claim C1 witness: the fixture configuration with an unknown measure
field and an unknown filter field. -/
theorem build_query_accumulates_both_failures_witness :
    ((∃ m ∈ pBadBoth.measures, validate_columns sampleCfg [m.field] ≠ []) ∧
     (∃ f ∈ pBadBoth.filterBy, validate_columns sampleCfg [f.field] ≠ [])) ∧
    (∃ errs, (build_query { table_configs := sampleCfg } pBadBoth).2 = Except.error errs ∧
      (∃ e ∈ errs, e.field = "measures") ∧
      (∃ e ∈ errs, e.field = "columns") ∧
      2 ≤ errs.length) :=
  ⟨⟨by decide, by decide⟩,
   build_query_accumulates_both_failures { table_configs := sampleCfg } pBadBoth
     (by decide) (by decide)⟩

theorem build_query_final_builder_preserves (b : Builder) (p : GetDataParams) :
    (build_query_final_builder b p).table_configs = b.table_configs ∧
    (build_query_final_builder b p).count_strategy = b.count_strategy := by
  unfold build_query_final_builder
  cases h : (validation_errors b.table_configs p).isEmpty with
  | false => simp [h]
  | true =>
    cases hb : buildPhase b.table_configs p with
    | ok out => simp [h, hb]
    | error e => simp [h, hb]

/-- Claim C9: calling build_query twice on the same builder instance with
the same parameters yields identical results (main SQL, count SQL and both
parameter lists): the per-call reset leaves nothing of the first call's
query_parts/parameters state observable by the second call. -/
theorem build_query_idempotent_on_instance (b : Builder) (p : GetDataParams) :
    (build_query (build_query b p).1 p).2 = (build_query b p).2 := by
  have h := build_query_final_builder_preserves b p
  show build_query_result (build_query_final_builder b p).table_configs
      (build_query_final_builder b p).count_strategy p
    = build_query_result b.table_configs b.count_strategy p
  rw [h.1, h.2]

/-- Claim C10: under the estimate strategy, a non-empty count result whose
first row's estimated_count is not the -1 sentinel makes
get_count_from_results fall through every return and yield Python None
rather than an integer. -/
theorem estimate_non_sentinel_returns_none (b : Builder) (cr mr : List Row)
    (p : GetDataParams) (row : Row) (rest : List Row)
    (hs : b.count_strategy = "estimate") (hcr : cr = row :: rest)
    (hmk : estMarkerNegOne row = false) :
    get_count_from_results b cr mr p = Except.ok Option.none := by
  subst hcr
  unfold get_count_from_results
  rw [hs, show (("estimate" : String) == "separate") = false from rfl,
    show (("estimate" : String) == "estimate") = true from rfl]
  simp [hmk]

/-- Claim C10 witness. -/
theorem estimate_non_sentinel_returns_none_witness :
    (bEst.count_strategy = "estimate" ∧ estMarkerNegOne rowNotEst = false) ∧
    get_count_from_results bEst [rowNotEst] mr10 pPage2 = Except.ok Option.none :=
  ⟨⟨rfl, by decide⟩,
   estimate_non_sentinel_returns_none bEst [rowNotEst] mr10 pPage2 rowNotEst [] rfl rfl
     (by decide)⟩

/-- Claim C4: under the estimate strategy with the -1 sentinel present, the
derived total is page*pageSize+pageSize when the main result fills the page,
(page-1)*pageSize+mainRowCount otherwise, and just the main row count when
page or pageSize is unknown (falsy). -/
theorem estimate_count_derivation (b : Builder) (cr mr : List Row)
    (p : GetDataParams) (row : Row) (rest : List Row)
    (hs : b.count_strategy = "estimate") (hcr : cr = row :: rest)
    (hmk : estMarkerNegOne row = true) :
    (∀ pg ps : Int, p.page = some pg → p.page_size = some ps → pg ≠ 0 → ps ≠ 0 →
        get_count_from_results b cr mr p =
          Except.ok (some (PyVal.scalar (PyScalar.i
            (if (mr.length : Int) = ps then pg * ps + ps
             else (pg - 1) * ps + (mr.length : Int)))))) ∧
    ((optTruthy p.page = false ∨ optTruthy p.page_size = false) →
        get_count_from_results b cr mr p =
          Except.ok (some (PyVal.scalar (PyScalar.i (mr.length : Int))))) := by
  subst hcr
  unfold get_count_from_results
  rw [hs, show (("estimate" : String) == "separate") = false from rfl,
    show (("estimate" : String) == "estimate") = true from rfl]
  constructor
  · intro pg ps hpg hps hpgne hpsne
    rw [hpg, hps]
    by_cases hml : (mr.length : Int) = ps
    · simp [hmk, hpgne, hpsne, hml]
    · simp [hmk, hpgne, hpsne, hml]
  · intro hfal
    cases hpg : p.page with
    | none => simp [hmk]
    | some pg =>
      cases hps : p.page_size with
      | none => simp [hmk]
      | some ps =>
        rw [hpg, hps] at hfal
        have hz : pg = 0 ∨ ps = 0 := by
          rcases hfal with h | h
          · simp [optTruthy] at h; exact Or.inl h
          · simp [optTruthy] at h; exact Or.inr h
        have hcond : (pg != 0 && ps != 0) = false := by
          rcases hz with h | h <;> simp [h]
        simp [hmk, hcond]

/-- Claim C4 witness: page 2, page size 10; a 10-row main result derives 30
and a 5-row main result derives 15. -/
theorem estimate_count_derivation_witness :
    (bEst.count_strategy = "estimate" ∧ estMarkerNegOne rowEst = true) ∧
    get_count_from_results bEst [rowEst] mr10 pPage2 =
      Except.ok (some (PyVal.scalar (PyScalar.i 30))) ∧
    get_count_from_results bEst [rowEst] mr5 pPage2 =
      Except.ok (some (PyVal.scalar (PyScalar.i 15))) := by
  refine ⟨⟨rfl, by decide⟩, ?_, ?_⟩
  · have h := (estimate_count_derivation bEst [rowEst] mr10 pPage2 rowEst [] rfl rfl
      (by decide)).1 2 10 rfl rfl (by decide) (by decide)
    simpa [mr10] using h
  · have h := (estimate_count_derivation bEst [rowEst] mr5 pPage2 rowEst [] rfl rfl
      (by decide)).1 2 10 rfl rfl (by decide) (by decide)
    simpa [mr5] using h

/-- Claim C5 (amended): BETWEEN with a two-element list gives
"col BETWEEN ? AND ?" with the two bounds; IN/INLIST with a non-empty list
gives "col IN (?,...)" with one placeholder per element in order; EQUAL with
any non-None value (a list included) gives "col = ?" bound to that one
value; every other shape is silently dropped with no parameters. -/
theorem filter_condition_shapes (f : FilterModel)
    (cmap : List (String × TableConfig)) :
    (∀ a b, pyUpper f.operator = "BETWEEN" → f.values = PyVal.list [a, b] →
       build_filter_condition f cmap =
         (some (bareCol f.field ++ " BETWEEN ? AND ?"),
          [PyVal.scalar a, PyVal.scalar b])) ∧
    (∀ x xs, (pyUpper f.operator = "IN" ∨ pyUpper f.operator = "INLIST") →
       f.values = PyVal.list (x :: xs) →
       build_filter_condition f cmap =
         (some (bareCol f.field ++ " IN ("
            ++ String.intercalate "," ((x :: xs).map (fun _ => "?")) ++ ")"),
          (x :: xs).map PyVal.scalar)) ∧
    (pyUpper f.operator = "EQUAL" → f.values ≠ PyVal.scalar PyScalar.null →
       build_filter_condition f cmap = (some (bareCol f.field ++ " = ?"), [f.values])) ∧
    (filterFormMatches f = false →
       build_filter_condition f cmap = (Option.none, [])) := by
  refine ⟨?_, ?_, ?_, ?_⟩
  · intro a b hop hv
    simp [build_filter_condition, hop, hv]
  · intro x xs hop hv
    rcases hop with hop | hop <;> simp [build_filter_condition, hop, hv]
  · intro hop hv
    simp only [build_filter_condition, hop]
    norm_num
    cases hval : f.values with
    | scalar v =>
      cases v with
      | null => exact absurd hval hv
      | s w => simp
      | i w => simp
      | b w => simp
    | list vs => simp
  · intro hform
    simp only [filterFormMatches, Bool.or_eq_false_iff] at hform
    obtain ⟨⟨hA, hB⟩, hC⟩ := hform
    simp only [build_filter_condition]
    rcases hb : (pyUpper f.operator == "BETWEEN") with _ | _
    · rcases hio : (pyUpper f.operator == "IN" || pyUpper f.operator == "INLIST") with _ | _
      · rcases he : (pyUpper f.operator == "EQUAL") with _ | _
        · simp [hb, hio, he]
        · rw [he] at hC
          simp only [Bool.true_and, bne_eq_false_iff_eq] at hC
          simp [hb, hio, he, hC]
      · rw [hio] at hB
        simp only [Bool.true_and] at hB
        simp only [hb, hio, Bool.false_eq_true, if_false, if_true]
        rcases hv : f.values with v | vs
        · simp
        · cases vs with
          | nil => simp
          | cons w ws => rw [hv] at hB; simp at hB
    · rw [hb] at hA
      simp only [Bool.true_and] at hA
      simp only [hb, if_true]
      rcases hv : f.values with v | vs
      · simp
      · rcases vs with _ | ⟨w1, ws⟩
        · simp
        · rcases ws with _ | ⟨w2, ws2⟩
          · simp
          · rcases ws2 with _ | ⟨w3, ws3⟩
            · rw [hv] at hA; simp at hA
            · simp

/-- Claim C5 witness: a table-qualified EQUAL filter with a scalar value. -/
theorem filter_condition_shapes_witness :
    (pyUpper fEqSeven.operator = "EQUAL" ∧ fEqSeven.values ≠ PyVal.scalar PyScalar.null) ∧
    build_filter_condition fEqSeven [] =
      (some (bareCol "t.c1" ++ " = ?"), [PyVal.scalar (PyScalar.i 7)]) :=
  ⟨⟨by decide, by decide⟩,
   (filter_condition_shapes fEqSeven []).2.2.1 (by decide) (by decide)⟩

/-- Claim C5 counterexample: an EQUAL filter whose values is a two-element
list is not dropped; the source emits "column = ?" bound to the whole list
as a single parameter, contradicting the claim that any shape outside the
three exact forms contributes no condition and no parameters. -/
theorem filter_condition_equal_list_not_dropped :
    build_filter_condition
        { field := "f1", operator := "EQUAL",
          values := PyVal.list [PyScalar.i 1, PyScalar.i 2] } [] =
      (some "f1 = ?", [PyVal.list [PyScalar.i 1, PyScalar.i 2]]) ∧
    build_filter_condition
        { field := "f1", operator := "EQUAL",
          values := PyVal.list [PyScalar.i 1, PyScalar.i 2] } [] ≠
      (Option.none, []) := by
  constructor <;> decide

/-- Claim C3: for the distinct-only request groupBy=[uidtype] on the fixture
configuration, the count query contains SELECT COUNT(*) under the simple
strategy; COUNT(DISTINCT uidtype) under distinct (with pipe-concatenation
for several groupBy columns); is itself a SELECT DISTINCT uidtype query with
no COUNT expression under separate; and is exactly
SELECT -1 AS estimated_count with no parameters under estimate. -/
theorem count_strategy_shapes :
    (build_query_result sampleCfg "simple" pDistinct = Except.ok resSimple ∧
       strContains resSimple.count_query "SELECT COUNT(*)" = true ∧
       resSimple.count_query =
         "SELECT COUNT(*) FROM newwpnl LEFT JOIN users ON newwpnl.uid = users.id") ∧
    (build_query_result sampleCfg "distinct" pDistinct = Except.ok resDistinct ∧
       strContains resDistinct.count_query "COUNT(DISTINCT uidtype)" = true) ∧
    (build_query_result sampleCfg "distinct" pDistinct2 = Except.ok resDistinct2 ∧
       strContains resDistinct2.count_query
         ("COUNT(DISTINCT (uidtype || " ++ sq ++ "|" ++ sq ++ " || businessdate))") = true) ∧
    (build_query_result sampleCfg "separate" pDistinct = Except.ok resSeparate ∧
       strStartsWith resSeparate.count_query "SELECT DISTINCT uidtype" = true ∧
       strContains resSeparate.count_query "COUNT" = false ∧
       resSeparate.count_query =
         "SELECT DISTINCT uidtype FROM newwpnl LEFT JOIN users ON newwpnl.uid = users.id") ∧
    (build_query_result sampleCfg "estimate" pDistinct = Except.ok resEstimate ∧
       resEstimate.count_query = "SELECT -1 AS estimated_count" ∧
       resEstimate.count_parameters = []) := by
  refine ⟨⟨by decide, by decide, by decide⟩, ⟨by decide, by decide⟩, ⟨by decide, by decide⟩,
    ⟨by decide, by decide, by decide, by decide⟩, ⟨by decide, by decide, by decide⟩⟩

theorem splitCharAux_none {ch : Char} {s : List Char}
    (h : splitCharAux ch s = Option.none) : ch ∉ s := by
  induction s with
  | nil => simp
  | cons c cs ih =>
    simp only [splitCharAux] at h
    split at h
    · cases h
    · next hne =>
      intro hmem
      rcases List.mem_cons.mp hmem with rfl | hmem2
      · exact hne rfl
      · rcases hsp : splitCharAux ch cs with _ | pq
        · exact ih hsp hmem2
        · rw [hsp] at h; cases h

theorem splitCharAux_some {ch : Char} {s pre post : List Char}
    (h : splitCharAux ch s = some (pre, post)) :
    s = pre ++ ch :: post ∧ ch ∉ pre := by
  induction s generalizing pre post with
  | nil => cases h
  | cons c cs ih =>
    simp only [splitCharAux] at h
    split at h
    · next heq =>
      cases h
      subst heq
      exact ⟨rfl, by simp⟩
    · next hne =>
      rcases hsp : splitCharAux ch cs with _ | pq
      · rw [hsp] at h; cases h
      · rw [hsp] at h
        cases h
        rcases ih hsp with ⟨h1, h2⟩
        constructor
        · simp [h1]
        · intro hmem
          rcases List.mem_cons.mp hmem with rfl | hmem2
          · exact hne rfl
          · exact h2 hmem2

theorem contains_iff_splitCharAux {ch : Char} {s : List Char} :
    s.contains ch = true ↔ ∃ pre post, splitCharAux ch s = some (pre, post) := by
  constructor
  · intro h
    rcases hsp : splitCharAux ch s with _ | pq
    · exact absurd (List.mem_of_elem_eq_true h) (splitCharAux_none hsp)
    · exact ⟨pq.1, pq.2, by simp⟩
  · rintro ⟨pre, post, hsp⟩
    rcases splitCharAux_some hsp with ⟨h1, _⟩
    rw [h1]
    exact List.elem_eq_true_of_mem (by simp)

theorem replaceFirstQ_append_no_q {a : List Char} (b rep : List Char)
    (ha : '?' ∉ a) : replaceFirstQ rep (a ++ b) = a ++ replaceFirstQ rep b := by
  induction a with
  | nil => rfl
  | cons c cs ih =>
    have hc : ¬ c = '?' := fun h => ha (h ▸ List.mem_cons_self _ _)
    have hcs : '?' ∉ cs := fun h => ha (List.mem_cons_of_mem _ h)
    show replaceFirstQ rep (c :: (cs ++ b)) = c :: (cs ++ replaceFirstQ rep b)
    rw [replaceFirstQ, if_neg hc, ih hcs]

theorem replaceFirstQ_split {s pre post : List Char} (rep : List Char)
    (h : splitCharAux '?' s = some (pre, post)) :
    replaceFirstQ rep s = pre ++ rep ++ post := by
  rcases splitCharAux_some h with ⟨h1, h2⟩
  subst h1
  rw [replaceFirstQ_append_no_q _ _ h2]
  simp [replaceFirstQ]

theorem formatQueryL_append_no_q {a : List Char} (b : List Char)
    (ps : List PyVal) (ha : '?' ∉ a) :
    formatQueryL (a ++ b) ps = a ++ formatQueryL b ps := by
  induction ps generalizing b with
  | nil => rfl
  | cons pr rest ih =>
    have hca : a.contains '?' = false := by
      rcases hc : a.contains '?' with _ | _
      · rfl
      · exact absurd (List.mem_of_elem_eq_true hc) ha
    have hab : (a ++ b).contains '?' = b.contains '?' := by
      have h2 : (a ++ b).contains '?' = (a.contains '?' || b.contains '?') := by
        simp [List.contains]
      rw [h2, hca, Bool.false_or]
    simp only [formatQueryL, hab]
    by_cases hcb : b.contains '?' = true
    · rw [if_pos hcb, if_pos hcb, replaceFirstQ_append_no_q b (renderParam pr).toList ha]
      exact ih _
    · rw [if_neg hcb, if_neg hcb]

/-- Claim C8 (amended): provided no parameter's escaped rendering itself
contains a question mark, the shared substitution walks the original text's
placeholders left to right, binding the k-th placeholder to the k-th
parameter, stopping when either runs out (extra placeholders stay, extra
parameters are ignored).  Without that proviso a question mark inside an
inserted string literal is itself consumed as the next placeholder, because
the source re-scans the whole text from the start after each replacement. -/
theorem formatQueryL_eq_substSpec (ps : List PyVal) (s : List Char)
    (h : ∀ pr ∈ ps, '?' ∉ (renderParam pr).toList) :
    formatQueryL s ps = substSpec s ps := by
  induction ps generalizing s with
  | nil => rfl
  | cons pr rest ih =>
    simp only [formatQueryL, substSpec]
    rcases hc : s.contains '?' with _ | _
    · rcases hsp : splitCharAux '?' s with _ | pq
      · simp
      · have h2 := contains_iff_splitCharAux.mpr ⟨pq.1, pq.2, hsp⟩
        rw [hc] at h2
        cases h2
    · rcases contains_iff_splitCharAux.mp hc with ⟨pre, post, hsp⟩
      rw [hsp]
      simp only [if_true]
      rw [replaceFirstQ_split _ hsp]
      have hpre : '?' ∉ pre := (splitCharAux_some hsp).2
      have hrep : '?' ∉ (renderParam pr).toList := h pr (List.mem_cons_self _ _)
      have hno : '?' ∉ pre ++ (renderParam pr).toList := by
        intro hm
        rcases List.mem_append.mp hm with hm | hm
        · exact hpre hm
        · exact hrep hm
      have hrest : ∀ x ∈ rest, '?' ∉ (renderParam x).toList :=
        fun x hx => h x (List.mem_cons_of_mem _ hx)
      calc formatQueryL (pre ++ (renderParam pr).toList ++ post) rest
          = formatQueryL ((pre ++ (renderParam pr).toList) ++ post) rest := rfl
        _ = (pre ++ (renderParam pr).toList) ++ formatQueryL post rest :=
            formatQueryL_append_no_q _ _ hno
        _ = pre ++ (renderParam pr).toList ++ substSpec post rest := by
            rw [ih post hrest, List.append_assoc]

/-- Claim C8 (amended): provided no parameter's escaped rendering itself
contains a question mark, the shared substitution walks the original text's
placeholders left to right, binding the k-th placeholder to the k-th
parameter, stopping when either runs out (extra placeholders stay, extra
parameters are ignored).  Without that proviso a question mark inside an
inserted string literal is itself consumed as the next placeholder, because
the source re-scans the whole text from the start after each replacement. -/
theorem format_query_substitutes_original_placeholders (q : String) (ps : List PyVal)
    (h : ∀ pr ∈ ps, '?' ∉ (renderParam pr).toList) :
    format_query_with_params q ps = String.mk (substSpec q.toList ps) ∧
    format_query_with_params q [] = q ∧
    (q.toList.contains '?' = false → format_query_with_params q ps = q) := by
  refine ⟨?_, by cases q; rfl, ?_⟩
  · show String.mk (formatQueryL q.toList ps) = String.mk (substSpec q.toList ps)
    rw [formatQueryL_eq_substSpec ps q.toList h]
  · intro hc
    show String.mk (formatQueryL q.toList ps) = q
    cases ps with
    | nil => cases q; rfl
    | cons pr rest =>
      simp only [formatQueryL, hc]
      cases q
      rfl

/-- Claim C8 witness: three placeholders, three quote-free parameters. -/
theorem format_query_substitutes_original_placeholders_witness :
    (∀ pr ∈ [PyVal.scalar (PyScalar.i 1), PyVal.scalar (PyScalar.s "x"),
             PyVal.list [PyScalar.i 2, PyScalar.i 3]],
       '?' ∉ (renderParam pr).toList) ∧
    (format_query_with_params "a = ? AND b = ? AND c IN (?)"
        [PyVal.scalar (PyScalar.i 1), PyVal.scalar (PyScalar.s "x"),
         PyVal.list [PyScalar.i 2, PyScalar.i 3]] =
      String.mk (substSpec ("a = ? AND b = ? AND c IN (?)").toList
        [PyVal.scalar (PyScalar.i 1), PyVal.scalar (PyScalar.s "x"),
         PyVal.list [PyScalar.i 2, PyScalar.i 3]]) ∧
     format_query_with_params "a = ? AND b = ? AND c IN (?)" [] =
       "a = ? AND b = ? AND c IN (?)" ∧
     (("a = ? AND b = ? AND c IN (?)").toList.contains '?' = false →
       format_query_with_params "a = ? AND b = ? AND c IN (?)"
         [PyVal.scalar (PyScalar.i 1), PyVal.scalar (PyScalar.s "x"),
          PyVal.list [PyScalar.i 2, PyScalar.i 3]] =
         "a = ? AND b = ? AND c IN (?)")) :=
  ⟨by decide,
   format_query_substitutes_original_placeholders "a = ? AND b = ? AND c IN (?)"
     [PyVal.scalar (PyScalar.i 1), PyVal.scalar (PyScalar.s "x"),
      PyVal.list [PyScalar.i 2, PyScalar.i 3]] (by decide)⟩

/-- Claim C8 counterexample: with the text "? ?" and parameters ["a?b","c"],
the source substitutes the second parameter into the question mark INSIDE
the first inserted literal (it re-scans from the start), producing
'a'c'b' ?, not the claim's per-original-placeholder result 'a?b' 'c'. -/
theorem format_query_rescans_inserted_literal :
    format_query_with_params "? ?"
        [PyVal.scalar (PyScalar.s "a?b"), PyVal.scalar (PyScalar.s "c")] =
      sq ++ "a" ++ sq ++ "c" ++ sq ++ "b" ++ sq ++ " ?" ∧
    String.mk (substSpec ("? ?").toList
        [PyVal.scalar (PyScalar.s "a?b"), PyVal.scalar (PyScalar.s "c")]) =
      sq ++ "a?b" ++ sq ++ " " ++ sq ++ "c" ++ sq ∧
    format_query_with_params "? ?"
        [PyVal.scalar (PyScalar.s "a?b"), PyVal.scalar (PyScalar.s "c")] ≠
      String.mk (substSpec ("? ?").toList
        [PyVal.scalar (PyScalar.s "a?b"), PyVal.scalar (PyScalar.s "c")]) := by
  refine ⟨by decide, by decide, by decide⟩

theorem minFrom_mem (cur : TableConfig) (l : List TableConfig) :
    minFrom cur l = cur ∨ minFrom cur l ∈ l := by
  induction l generalizing cur with
  | nil => exact Or.inl rfl
  | cons y ys ih =>
    simp only [minFrom]
    rcases ih (if y.priority < cur.priority then y else cur) with h | h
    · rw [h]
      split
      · exact Or.inr (List.mem_cons_self _ _)
      · exact Or.inl rfl
    · exact Or.inr (List.mem_cons_of_mem _ h)

theorem minFrom_le (cur : TableConfig) (l : List TableConfig) :
    (minFrom cur l).priority ≤ cur.priority ∧
    ∀ t ∈ l, (minFrom cur l).priority ≤ t.priority := by
  induction l generalizing cur with
  | nil => exact ⟨le_refl _, by intro t ht; cases ht⟩
  | cons y ys ih =>
    simp only [minFrom]
    rcases ih (if y.priority < cur.priority then y else cur) with ⟨h1, h2⟩
    have hcur : (if y.priority < cur.priority then y else cur).priority ≤ cur.priority := by
      split
      · next hlt => exact le_of_lt hlt
      · exact le_refl _
    have hy : (if y.priority < cur.priority then y else cur).priority ≤ y.priority := by
      split
      · exact le_refl _
      · next hnlt => exact le_of_not_lt hnlt
    refine ⟨le_trans h1 hcur, ?_⟩
    intro t ht
    rcases List.mem_cons.mp ht with rfl | ht2
    · exact le_trans h1 hy
    · exact h2 t ht2

theorem minByPriority_ok {l : List TableConfig} {t : TableConfig}
    (h : minByPriority l = some t) :
    t ∈ l ∧ ∀ u ∈ l, t.priority ≤ u.priority := by
  cases l with
  | nil => cases h
  | cons x xs =>
    simp only [minByPriority] at h
    cases h
    constructor
    · rcases minFrom_mem x xs with h2 | h2
      · rw [h2]; exact List.mem_cons_self _ _
      · exact List.mem_cons_of_mem _ h2
    · intro u hu
      rcases List.mem_cons.mp hu with h3 | h3
      · rw [h3]; exact (minFrom_le x xs).1
      · exact (minFrom_le x xs).2 u h3

theorem determine_main_table_ok {set_a : Config} {mt : TableConfig}
    (h : determine_main_table set_a = Except.ok mt) :
    mt ∈ set_a.map Prod.snd ∧ ∀ t ∈ set_a.map Prod.snd, mt.priority ≤ t.priority := by
  unfold determine_main_table at h
  rcases hm : minByPriority (set_a.map Prod.snd) with _ | t
  · rw [hm] at h; cases h
  · rw [hm] at h
    cases h
    exact minByPriority_ok hm

theorem buildPhase_ok_inv {cfgs : Config} {p : GetDataParams} {out : BuildPhaseOut}
    (h : buildPhase cfgs p = Except.ok out) :
    ∃ main mainJ gb,
      determine_main_table (setA cfgs p) = Except.ok main ∧
      determine_main_table (joinSet cfgs p) = Except.ok mainJ ∧
      build_group_by_items p (joinSet cfgs p)
          (selectItemsFinal p (joinSet cfgs p) mainJ) = Except.ok gb ∧
      out = ⟨build_pagination p
          { select := selectItemsFinal p (joinSet cfgs p) mainJ,
            fromT := main.name,
            joins := buildJoinClauses cfgs main (joinSet cfgs p),
            whereParts := (buildWhere p (cmapOf cfgs p)).1,
            group_by := gb,
            order_by := buildOrderBy p,
            limit := Option.none, offset := Option.none },
        (buildWhere p (cmapOf cfgs p)).2, main, joinSet cfgs p, cmapOf cfgs p⟩ := by
  simp only [buildPhase] at h
  split at h
  · exact Except.noConfusion h
  · next main hmain =>
    split at h
    · exact Except.noConfusion h
    · next mainJ hmainJ =>
      split at h
      · exact Except.noConfusion h
      · next gb hgb =>
        refine ⟨main, mainJ, gb, hmain, hmainJ, hgb, ?_⟩
        cases h
        rfl

theorem build_pagination_preserves (p : GetDataParams) (qp : QueryParts) :
    (build_pagination p qp).select = qp.select ∧
    (build_pagination p qp).fromT = qp.fromT ∧
    (build_pagination p qp).joins = qp.joins ∧
    (build_pagination p qp).whereParts = qp.whereParts ∧
    (build_pagination p qp).group_by = qp.group_by ∧
    (build_pagination p qp).order_by = qp.order_by := by
  simp only [build_pagination]
  split
  · split
    · split <;> exact ⟨rfl, rfl, rfl, rfl, rfl, rfl⟩
    · exact ⟨rfl, rfl, rfl, rfl, rfl, rfl⟩
  · exact ⟨rfl, rfl, rfl, rfl, rfl, rfl⟩

theorem buildPhase_error_of_setA_nil {cfgs : Config} {p : GetDataParams}
    (h : setA cfgs p = []) :
    buildPhase cfgs p =
      Except.error [{ field := "columns", message := "No tables found for requested columns" }] := by
  have hd : determine_main_table (getExplicitTables cfgs p).1 =
      Except.error [{ field := "columns", message := "No tables found for requested columns" }] := by
    rw [show (getExplicitTables cfgs p).1 = [] from h]
    rfl
  simp only [buildPhase, hd]

/-- Claim C6: the FROM-anchoring main table is picked among the explicitly
requested tables only, as one of minimal priority; an empty requested set
raises the structured "No tables found for requested columns" failure and
build_query produces no SQL. -/
theorem main_table_selection (cfgs : Config) (strat : String) (p : GetDataParams) :
    (setA cfgs p = [] →
       determine_main_table (setA cfgs p) =
         Except.error [{ field := "columns", message := "No tables found for requested columns" }] ∧
       ∀ r, build_query_result cfgs strat p ≠ Except.ok r) ∧
    (∀ out, buildPhase cfgs p = Except.ok out →
       out.main ∈ (setA cfgs p).map Prod.snd ∧
       (∀ t ∈ (setA cfgs p).map Prod.snd, out.main.priority ≤ t.priority) ∧
       out.qp.fromT = out.main.name) := by
  constructor
  · intro hnil
    constructor
    · rw [hnil]; rfl
    · intro r hok
      have hbp := buildPhase_error_of_setA_nil hnil
      simp only [build_query_result, hbp] at hok
      split at hok
      · exact Except.noConfusion hok
      · exact Except.noConfusion hok
  · intro out hout
    rcases buildPhase_ok_inv hout with ⟨main, mainJ, gb, hmain, hmainJ, hgb, hrec⟩
    have hmm := determine_main_table_ok hmain
    have hmain_eq : out.main = main := by rw [hrec]
    have hfrom : out.qp.fromT = main.name := by
      rw [hrec]
      exact (build_pagination_preserves p _).2.1
    exact ⟨hmain_eq ▸ hmm.1, by intro t ht; rw [hmain_eq]; exact hmm.2 t ht,
      by rw [hfrom, hmain_eq]⟩

/-- Claim C6 witness: an empty request resolves no tables and fails; the
distinct-only fixture request anchors FROM at newwpnl (priority 1). -/
theorem main_table_selection_witness :
    (setA sampleCfg pEmpty = [] ∧
      (determine_main_table (setA sampleCfg pEmpty) =
         Except.error [{ field := "columns", message := "No tables found for requested columns" }] ∧
       ∀ r, build_query_result sampleCfg "simple" pEmpty ≠ Except.ok r)) ∧
    (buildPhase sampleCfg pDistinct = Except.ok outDistinct ∧
      (outDistinct.main ∈ (setA sampleCfg pDistinct).map Prod.snd ∧
       (∀ t ∈ (setA sampleCfg pDistinct).map Prod.snd,
          outDistinct.main.priority ≤ t.priority) ∧
       outDistinct.qp.fromT = outDistinct.main.name)) :=
  ⟨⟨by decide, (main_table_selection sampleCfg "simple" pEmpty).1 (by decide)⟩,
   ⟨by decide, (main_table_selection sampleCfg "simple" pDistinct).2 outDistinct (by decide)⟩⟩

theorem toDigitsCore_ne_nil (b : Nat) :
    ∀ (fuel n : Nat) (ds : List Char), (ds ≠ [] ∨ 0 < fuel) →
      Nat.toDigitsCore b fuel n ds ≠ [] := by
  intro fuel
  induction fuel with
  | zero =>
    intro n ds h
    rcases h with h | h
    · exact h
    · exact absurd h (by omega)
  | succ f ih =>
    intro n ds h
    show (if n / b = 0 then Nat.digitChar (n % b) :: ds
          else Nat.toDigitsCore b f (n / b) (Nat.digitChar (n % b) :: ds)) ≠ []
    split
    · simp
    · exact ih (n / b) _ (Or.inl (by simp))

theorem nat_repr_ne_empty (n : Nat) : Nat.repr n ≠ "" := by
  intro h
  have h2 : (Nat.toDigitsCore 10 (n + 1) n []).asString = "" := h
  have h3 : Nat.toDigitsCore 10 (n + 1) n [] = [] := congrArg String.data h2
  exact toDigitsCore_ne_nil 10 (n + 1) n [] (Or.inr (Nat.succ_pos n)) h3

theorem toString_int_ne_empty (n : Int) : toString n ≠ "" := by
  cases n with
  | ofNat m =>
    show Nat.repr m ≠ ""
    exact nat_repr_ne_empty m
  | negSucc m =>
    intro h
    have h2 : '-' :: (Nat.repr (m + 1)).data = [] := congrArg String.data h
    exact List.noConfusion h2

theorem lPre_append (pat a b : List Char) (h : pat.length ≤ a.length) :
    lPre pat (a ++ b) = lPre pat a := by
  induction pat generalizing a with
  | nil => simp [lPre]
  | cons pc pcs ih =>
    cases a with
    | nil => simp at h
    | cons c cs =>
      simp only [List.length_cons] at h
      show lPre (pc :: pcs) (c :: (cs ++ b)) = lPre (pc :: pcs) (c :: cs)
      simp only [lPre]
      rw [ih cs (Nat.le_of_succ_le_succ h)]

theorem lPre_append_false (pat a b : List Char) (h : lPre (pat.take a.length) a = false) :
    lPre pat (a ++ b) = false := by
  induction pat generalizing a with
  | nil => simp [lPre, List.take] at h
  | cons pc pcs ih =>
    cases a with
    | nil => simp [lPre] at h
    | cons c cs =>
      simp only [List.length_cons, List.take_succ_cons, lPre] at h
      show lPre (pc :: pcs) (c :: (cs ++ b)) = false
      rcases hpc : (pc == c) with _ | _
      · simp only [lPre, hpc, Bool.false_and]
      · rw [hpc, Bool.true_and] at h
        simp only [lPre, hpc, Bool.true_and]
        exact ih cs h

theorem strStartsWith_append_left (pre s pat : String)
    (h : pat.toList.length ≤ pre.toList.length) :
    strStartsWith (pre ++ s) pat = strStartsWith pre pat := by
  show lPre pat.toList (pre ++ s).toList = lPre pat.toList pre.toList
  rw [show (pre ++ s).toList = pre.toList ++ s.toList from rfl]
  exact lPre_append _ _ _ h

theorem strStartsWith_lit_false (lit r pat : String)
    (h : lPre (pat.toList.take lit.toList.length) lit.toList = false) :
    strStartsWith (lit ++ r) pat = false := by
  show lPre pat.toList (lit ++ r).toList = false
  rw [show (lit ++ r).toList = lit.toList ++ r.toList from rfl]
  exact lPre_append_false _ _ _ h

theorem convertJoinType_cases (ty : String) :
    convertJoinType ty = "LEFT" ∨ convertJoinType ty = "RIGHT" ∨
    convertJoinType ty = "INNER" ∨ convertJoinType ty = "FULL OUTER" := by
  simp only [convertJoinType]
  split_ifs <;> simp

theorem join_clause_reassoc (t T X : String) :
    t ++ " JOIN " ++ T ++ " ON " ++ X = (t ++ " JOIN ") ++ (T ++ " ON " ++ X) := by
  simp [String.append_assoc]

theorem build_join_clause_shape {src tgt : TableConfig} {rel : RelationDef} {c : String}
    (h : build_join_clause src tgt rel = some c) :
    ∃ r, c = "LEFT JOIN " ++ r ∨ c = "RIGHT JOIN " ++ r ∨
      c = "INNER JOIN " ++ r ∨ c = "FULL OUTER JOIN " ++ r := by
  simp only [build_join_clause] at h
  split at h
  · exact Option.noConfusion h
  · injection h with h
    subst h
    rcases convertJoinType_cases rel.type with h4 | h4 | h4 | h4 <;>
      rw [h4, join_clause_reassoc]
    · exact ⟨_, Or.inl rfl⟩
    · exact ⟨_, Or.inr (Or.inl rfl)⟩
    · exact ⟨_, Or.inr (Or.inr (Or.inl rfl))⟩
    · exact ⟨_, Or.inr (Or.inr (Or.inr rfl))⟩

theorem build_join_clause_from_reverse_shape {tgt src : TableConfig}
    {rel : RelationDef} {c : String}
    (h : build_join_clause_from_reverse tgt src rel = some c) :
    ∃ r, c = "LEFT JOIN " ++ r ∨ c = "RIGHT JOIN " ++ r ∨
      c = "INNER JOIN " ++ r ∨ c = "FULL OUTER JOIN " ++ r := by
  simp only [build_join_clause_from_reverse] at h
  split at h
  · exact Option.noConfusion h
  · injection h with h
    subst h
    rcases convertJoinType_cases rel.type with h4 | h4 | h4 | h4 <;>
      rw [h4, join_clause_reassoc]
    · exact ⟨_, Or.inl rfl⟩
    · exact ⟨_, Or.inr (Or.inl rfl)⟩
    · exact ⟨_, Or.inr (Or.inr (Or.inl rfl))⟩
    · exact ⟨_, Or.inr (Or.inr (Or.inr rfl))⟩

theorem findJoinPath_shape {cfgs : Config} {target : TableConfig} :
    ∀ {joined : List (String × TableConfig)} {c : String},
      findJoinPath cfgs target joined = some c →
      ∃ r, c = "LEFT JOIN " ++ r ∨ c = "RIGHT JOIN " ++ r ∨
        c = "INNER JOIN " ++ r ∨ c = "FULL OUTER JOIN " ++ r := by
  intro joined
  induction joined with
  | nil => intro c h; exact Option.noConfusion h
  | cons e rest ih =>
    intro c h
    obtain ⟨jname, jcfg⟩ := e
    simp only [findJoinPath] at h
    split at h
    · exact build_join_clause_shape h
    · split at h
      · exact build_join_clause_from_reverse_shape h
      · exact ih h

theorem joinLoop_shape {cfgs : Config} :
    ∀ (ts : List TableConfig) (joined : List (String × TableConfig)) {c : String},
      c ∈ joinLoop cfgs ts joined →
      ∃ r, c = "LEFT JOIN " ++ r ∨ c = "RIGHT JOIN " ++ r ∨
        c = "INNER JOIN " ++ r ∨ c = "FULL OUTER JOIN " ++ r := by
  intro ts
  induction ts with
  | nil => intro joined c h; cases h
  | cons t ts ih =>
    intro joined c h
    simp only [joinLoop] at h
    split at h
    · exact ih _ h
    · split at h
      · next clause hfind =>
        rcases List.mem_cons.mp h with rfl | h2
        · exact findJoinPath_shape hfind
        · exact ih _ h2
      · exact ih _ h

theorem buildJoinClauses_shape {cfgs : Config} {main : TableConfig} {jt : Config}
    {c : String} (h : c ∈ buildJoinClauses cfgs main jt) :
    ∃ r, c = "LEFT JOIN " ++ r ∨ c = "RIGHT JOIN " ++ r ∨
      c = "INNER JOIN " ++ r ∨ c = "FULL OUTER JOIN " ++ r := by
  unfold buildJoinClauses at h
  split at h
  · cases h
  · exact joinLoop_shape _ _ h

theorem buildOrderBy_shape (p : GetDataParams) :
    buildOrderBy p = "" ∨ ∃ r, buildOrderBy p = "ORDER BY " ++ r := by
  unfold buildOrderBy
  split
  · exact Or.inl rfl
  · exact Or.inr ⟨_, rfl⟩

theorem mem_construct_parts {qp : QueryParts} {s : String}
    (hs : s ∈ construct_final_query_parts qp) :
    s = "SELECT " ++ String.intercalate ", " qp.select ∨
    s = "FROM " ++ qp.fromT ∨
    s ∈ qp.joins ∨
    s = "WHERE " ++ String.intercalate " AND " qp.whereParts ∨
    (qp.group_by ≠ [] ∧ s = "GROUP BY " ++ String.intercalate ", " qp.group_by) ∨
    (qp.order_by ≠ "" ∧ s = qp.order_by) ∨
    (∃ l, qp.limit = some l ∧ s = "LIMIT " ++ l) ∨
    (∃ o, qp.offset = some o ∧ s = "OFFSET " ++ o) := by
  unfold construct_final_query_parts at hs
  rcases List.mem_append.mp hs with hs | hs
  · rcases List.mem_append.mp hs with hs | hs
    · rcases List.mem_append.mp hs with hs | hs
      · rcases List.mem_append.mp hs with hs | hs
        · rcases List.mem_append.mp hs with hs | hs
          · rcases List.mem_append.mp hs with hs | hs
            · rcases List.mem_cons.mp hs with h1 | hs2
              · exact Or.inl h1
              · rcases List.mem_cons.mp hs2 with h1 | h0
                · exact Or.inr (Or.inl h1)
                · cases h0
            · exact Or.inr (Or.inr (Or.inl hs))
          · split at hs
            · cases hs
            · rcases List.mem_cons.mp hs with h1 | h0
              · exact Or.inr (Or.inr (Or.inr (Or.inl h1)))
              · cases h0
        · split at hs
          · cases hs
          · next hgne =>
            rcases List.mem_cons.mp hs with h1 | h0
            · refine Or.inr (Or.inr (Or.inr (Or.inr (Or.inl ⟨?_, h1⟩))))
              intro hq
              exact hgne (by simp [hq])
            · cases h0
      · split at hs
        · cases hs
        · next hone =>
          rcases List.mem_cons.mp hs with h1 | h0
          · refine Or.inr (Or.inr (Or.inr (Or.inr (Or.inr (Or.inl ⟨?_, h1⟩)))))
            intro hq
            exact hone (by simp [hq])
          · cases h0
    · rcases hl : qp.limit with _ | l
      · rw [hl] at hs; cases hs
      · rw [hl] at hs
        have hs2 : s ∈ (if (l == "") = true then [] else ["LIMIT " ++ l]) := hs
        rcases hle : (l == "") with _ | _
        · have hne : ¬ ((l == "") = true) := by rw [hle]; simp
          rw [if_neg hne] at hs2
          rcases List.mem_cons.mp hs2 with h1 | h0
          · exact Or.inr (Or.inr (Or.inr (Or.inr (Or.inr (Or.inr (Or.inl ⟨l, rfl, h1⟩))))))
          · cases h0
        · rw [if_pos hle] at hs2
          cases hs2
  · rcases ho : qp.offset with _ | o
    · rw [ho] at hs; cases hs
    · rw [ho] at hs
      have hs2 : s ∈ (if (o == "") = true then [] else ["OFFSET " ++ o]) := hs
      rcases hoe : (o == "") with _ | _
      · have hne : ¬ ((o == "") = true) := by rw [hoe]; simp
        rw [if_neg hne] at hs2
        rcases List.mem_cons.mp hs2 with h1 | h0
        · exact Or.inr (Or.inr (Or.inr (Or.inr (Or.inr (Or.inr (Or.inr ⟨o, rfl, h1⟩))))))
        · cases h0
      · rw [if_pos hoe] at hs2
        cases hs2

theorem parts_no_pagination {qp : QueryParts}
    (hj : ∀ c ∈ qp.joins, ∃ r, c = "LEFT JOIN " ++ r ∨ c = "RIGHT JOIN " ++ r ∨
        c = "INNER JOIN " ++ r ∨ c = "FULL OUTER JOIN " ++ r)
    (ho : qp.order_by = "" ∨ ∃ r, qp.order_by = "ORDER BY " ++ r)
    (hl : qp.limit = Option.none) (hoff : qp.offset = Option.none) :
    ∀ s ∈ construct_final_query_parts qp,
      strStartsWith s "LIMIT" = false ∧ strStartsWith s "OFFSET" = false := by
  intro s hs
  rcases mem_construct_parts hs with h | h | h | h | h | h | h | h
  · rw [h]
    exact ⟨strStartsWith_lit_false _ _ _ (by decide), strStartsWith_lit_false _ _ _ (by decide)⟩
  · rw [h]
    exact ⟨strStartsWith_lit_false _ _ _ (by decide), strStartsWith_lit_false _ _ _ (by decide)⟩
  · rcases hj s h with ⟨r, h4 | h4 | h4 | h4⟩ <;> rw [h4] <;>
      exact ⟨strStartsWith_lit_false _ _ _ (by decide), strStartsWith_lit_false _ _ _ (by decide)⟩
  · rw [h]
    exact ⟨strStartsWith_lit_false _ _ _ (by decide), strStartsWith_lit_false _ _ _ (by decide)⟩
  · rw [h.2]
    exact ⟨strStartsWith_lit_false _ _ _ (by decide), strStartsWith_lit_false _ _ _ (by decide)⟩
  · rcases ho with ho2 | ⟨r, ho2⟩
    · exact absurd ho2 h.1
    · rw [h.2, ho2]
      exact ⟨strStartsWith_lit_false _ _ _ (by decide), strStartsWith_lit_false _ _ _ (by decide)⟩
  · rcases h with ⟨l, hsome, _⟩
    rw [hl] at hsome
    cases hsome
  · rcases h with ⟨o, hsome, _⟩
    rw [hoff] at hsome
    cases hsome

theorem parts_no_group {qp : QueryParts}
    (hj : ∀ c ∈ qp.joins, ∃ r, c = "LEFT JOIN " ++ r ∨ c = "RIGHT JOIN " ++ r ∨
        c = "INNER JOIN " ++ r ∨ c = "FULL OUTER JOIN " ++ r)
    (ho : qp.order_by = "" ∨ ∃ r, qp.order_by = "ORDER BY " ++ r)
    (hg : qp.group_by = []) :
    ∀ s ∈ construct_final_query_parts qp, strStartsWith s "GROUP BY" = false := by
  intro s hs
  rcases mem_construct_parts hs with h | h | h | h | h | h | h | h
  · rw [h]; exact strStartsWith_lit_false _ _ _ (by decide)
  · rw [h]; exact strStartsWith_lit_false _ _ _ (by decide)
  · rcases hj s h with ⟨r, h4 | h4 | h4 | h4⟩ <;> rw [h4] <;>
      exact strStartsWith_lit_false _ _ _ (by decide)
  · rw [h]; exact strStartsWith_lit_false _ _ _ (by decide)
  · exact absurd hg h.1
  · rcases ho with ho2 | ⟨r, ho2⟩
    · exact absurd ho2 h.1
    · rw [h.2, ho2]; exact strStartsWith_lit_false _ _ _ (by decide)
  · rcases h with ⟨l, _, h2⟩
    rw [h2]; exact strStartsWith_lit_false _ _ _ (by decide)
  · rcases h with ⟨o, _, h2⟩
    rw [h2]; exact strStartsWith_lit_false _ _ _ (by decide)

theorem group_clause_mem {qp : QueryParts} (hg : qp.group_by ≠ []) :
    ("GROUP BY " ++ String.intercalate ", " qp.group_by) ∈ construct_final_query_parts qp := by
  have hgb : qp.group_by.isEmpty = false := by
    cases hq : qp.group_by with
    | nil => exact absurd hq hg
    | cons a as => rfl
  unfold construct_final_query_parts
  apply List.mem_append_left
  apply List.mem_append_left
  apply List.mem_append_left
  apply List.mem_append_right
  simp [hgb]

theorem parts_set_limit (qp : QueryParts) (l : String)
    (hl : qp.limit = Option.none) (hoff : qp.offset = Option.none)
    (hl2 : (l == "") = false) :
    construct_final_query_parts { qp with limit := some l } =
      construct_final_query_parts qp ++ ["LIMIT " ++ l] := by
  unfold construct_final_query_parts
  simp only [hl, hoff, hl2]
  simp

theorem parts_set_limit_offset (qp : QueryParts) (l o : String)
    (hl : qp.limit = Option.none) (hoff : qp.offset = Option.none)
    (hl2 : (l == "") = false) (ho2 : (o == "") = false) :
    construct_final_query_parts { qp with limit := some l, offset := some o } =
      construct_final_query_parts qp ++ ["LIMIT " ++ l, "OFFSET " ++ o] := by
  unfold construct_final_query_parts
  simp only [hl, hoff, hl2, ho2]
  simp

/-- Claim C2: with truthy page and page_size the main query's clause list
ends in LIMIT page_size, followed by OFFSET (page-1)*page_size exactly when
that product is positive (never on page 1), with no other LIMIT/OFFSET
clause anywhere; with a falsy or absent page or page_size no clause of the
query starts with LIMIT or OFFSET at all. -/
theorem pagination_clauses (cfgs : Config) (p : GetDataParams) (out : BuildPhaseOut)
    (h : buildPhase cfgs p = Except.ok out) :
    (∀ pg ps : Int, p.page = some pg → p.page_size = some ps → pg ≠ 0 → ps ≠ 0 →
      ∃ base, construct_final_query_parts out.qp
          = base ++ ["LIMIT " ++ toString ps]
            ++ (if (pg - 1) * ps > 0 then ["OFFSET " ++ toString ((pg - 1) * ps)] else [])
        ∧ ∀ s ∈ base, strStartsWith s "LIMIT" = false ∧ strStartsWith s "OFFSET" = false) ∧
    ((optTruthy p.page = false ∨ optTruthy p.page_size = false) →
      ∀ s ∈ construct_final_query_parts out.qp,
        strStartsWith s "LIMIT" = false ∧ strStartsWith s "OFFSET" = false) := by
  rcases buildPhase_ok_inv h with ⟨main, mainJ, gb, hmain, hmainJ, hgb, hrec⟩
  set qp0 : QueryParts :=
    { select := selectItemsFinal p (joinSet cfgs p) mainJ,
      fromT := main.name,
      joins := buildJoinClauses cfgs main (joinSet cfgs p),
      whereParts := (buildWhere p (cmapOf cfgs p)).1,
      group_by := gb,
      order_by := buildOrderBy p,
      limit := Option.none, offset := Option.none } with hqp0
  have hqp : out.qp = build_pagination p qp0 := by rw [hrec]
  have hj0 : ∀ c ∈ qp0.joins, ∃ r, c = "LEFT JOIN " ++ r ∨ c = "RIGHT JOIN " ++ r ∨
      c = "INNER JOIN " ++ r ∨ c = "FULL OUTER JOIN " ++ r := by
    intro c hc
    exact buildJoinClauses_shape hc
  have ho0 : qp0.order_by = "" ∨ ∃ r, qp0.order_by = "ORDER BY " ++ r := buildOrderBy_shape p
  have hbase := parts_no_pagination hj0 ho0 rfl rfl
  constructor
  · intro pg ps hpg hps hpgne hpsne
    have hcond : (pg != 0 && ps != 0) = true := by simp [hpgne, hpsne]
    have hlne : ((toString ps == "") = false) := by
      rcases hq : (toString ps == "") with _ | _
      · rfl
      · exact absurd (eq_of_beq hq) (toString_int_ne_empty ps)
    rw [hqp]
    simp only [build_pagination, hpg, hps]
    rw [if_pos hcond]
    by_cases hop : (pg - 1) * ps > 0
    · rw [if_pos hop]
      refine ⟨construct_final_query_parts qp0, ?_, hbase⟩
      have hone : ((toString ((pg - 1) * ps) == "") = false) := by
        rcases hq : (toString ((pg - 1) * ps) == "") with _ | _
        · rfl
        · exact absurd (eq_of_beq hq) (toString_int_ne_empty _)
      rw [if_pos hop]
      have := parts_set_limit_offset qp0 (toString ps) (toString ((pg - 1) * ps))
        rfl rfl hlne hone
      rw [this]
      simp
    · rw [if_neg hop]
      refine ⟨construct_final_query_parts qp0, ?_, hbase⟩
      rw [if_neg hop]
      have := parts_set_limit qp0 (toString ps) rfl rfl hlne
      rw [this]
      simp
  · intro hfal
    have hnp : build_pagination p qp0 = qp0 := by
      cases hpg : p.page with
      | none => simp [build_pagination, hpg]
      | some pg =>
        cases hps : p.page_size with
        | none => simp [build_pagination, hpg, hps]
        | some ps =>
          rw [hpg, hps] at hfal
          have hz : ¬ ((pg != 0 && ps != 0) = true) := by
            rcases hfal with hq | hq <;> simp [optTruthy] at hq <;> simp [hq]
          simp only [build_pagination, hpg, hps]
          rw [if_neg hz]
    rw [hqp, hnp]
    exact hbase

/-- Claim C2 witness: page 2 with page size 10 on the fixture
configuration. -/
theorem pagination_clauses_witness :
    buildPhase sampleCfg pPage2 = Except.ok outPage2 ∧
    (∃ base, construct_final_query_parts outPage2.qp
        = base ++ ["LIMIT " ++ toString (10 : Int)]
          ++ (if ((2 : Int) - 1) * 10 > 0
              then ["OFFSET " ++ toString (((2 : Int) - 1) * 10)] else [])
      ∧ ∀ s ∈ base, strStartsWith s "LIMIT" = false ∧ strStartsWith s "OFFSET" = false) :=
  ⟨by decide,
   (pagination_clauses sampleCfg pPage2 outPage2 (by decide)).1 2 10 rfl rfl
     (by decide) (by decide)⟩

/-- Claim C7 (amended): the GROUP BY list is non-empty exactly when the
request is aggregated, some produced SELECT item is an aggregate call, and
the computed item list is non-empty; its contents start with the mandatory
fields of the lowest-priority table of the FULL JOIN SET (not necessarily
the FROM anchor), then the other joined tables' mandatory fields appended
verbatim without de-duplication, then the requested groupBy columns, each
skipped only when already present; and the GROUP BY clause appears in the
query exactly when that list is non-empty. -/
theorem group_by_emission (cfgs : Config) (p : GetDataParams) (out : BuildPhaseOut)
    (h : buildPhase cfgs p = Except.ok out) :
    ∃ mainJ, determine_main_table (joinSet cfgs p) = Except.ok mainJ ∧
      out.qp.select = selectItemsFinal p (joinSet cfgs p) mainJ ∧
      out.qp.group_by =
        (if p.is_aggregated && hasAggregates (selectItemsFinal p (joinSet cfgs p) mainJ)
         then buildGroupByItems p (joinSet cfgs p) mainJ else []) ∧
      ((∃ s ∈ construct_final_query_parts out.qp, strStartsWith s "GROUP BY" = true) ↔
        out.qp.group_by ≠ []) := by
  rcases buildPhase_ok_inv h with ⟨main, mainJ, gb, hmain, hmainJ, hgb, hrec⟩
  set qp0 : QueryParts :=
    { select := selectItemsFinal p (joinSet cfgs p) mainJ,
      fromT := main.name,
      joins := buildJoinClauses cfgs main (joinSet cfgs p),
      whereParts := (buildWhere p (cmapOf cfgs p)).1,
      group_by := gb,
      order_by := buildOrderBy p,
      limit := Option.none, offset := Option.none } with hqp0
  have hqp : out.qp = build_pagination p qp0 := by rw [hrec]
  have hpres := build_pagination_preserves p qp0
  have hsel : out.qp.select = selectItemsFinal p (joinSet cfgs p) mainJ := by
    rw [hqp, hpres.1]
  have hgbfield : out.qp.group_by = gb := by
    rw [hqp, hpres.2.2.2.2.1]
  have hgbval : gb =
      (if p.is_aggregated && hasAggregates (selectItemsFinal p (joinSet cfgs p) mainJ)
       then buildGroupByItems p (joinSet cfgs p) mainJ else []) := by
    unfold build_group_by_items at hgb
    rcases hA : p.is_aggregated with _ | _
    · rw [hA] at hgb
      simp only [Bool.not_false, if_true] at hgb
      injection hgb with hgb
      rw [← hgb]
      simp
    · rw [hA] at hgb
      simp only [Bool.not_true, Bool.false_eq_true, if_false] at hgb
      rcases hH : hasAggregates (selectItemsFinal p (joinSet cfgs p) mainJ) with _ | _
      · rw [hH] at hgb
        simp only [Bool.not_false, if_true] at hgb
        injection hgb with hgb
        rw [← hgb]
        simp
      · rw [hH] at hgb
        simp only [Bool.not_true, Bool.false_eq_true, if_false, hmainJ] at hgb
        injection hgb with hgb
        rw [← hgb]
        simp
  have hj0 : ∀ c ∈ qp0.joins, ∃ r, c = "LEFT JOIN " ++ r ∨ c = "RIGHT JOIN " ++ r ∨
      c = "INNER JOIN " ++ r ∨ c = "FULL OUTER JOIN " ++ r := by
    intro c hc
    exact buildJoinClauses_shape hc
  have ho0 : qp0.order_by = "" ∨ ∃ r, qp0.order_by = "ORDER BY " ++ r := buildOrderBy_shape p
  have hjout : ∀ c ∈ out.qp.joins, ∃ r, c = "LEFT JOIN " ++ r ∨ c = "RIGHT JOIN " ++ r ∨
      c = "INNER JOIN " ++ r ∨ c = "FULL OUTER JOIN " ++ r := by
    rw [hqp, hpres.2.2.1]
    exact hj0
  have hoout : out.qp.order_by = "" ∨ ∃ r, out.qp.order_by = "ORDER BY " ++ r := by
    rw [hqp, hpres.2.2.2.2.2]
    exact ho0
  refine ⟨mainJ, hmainJ, hsel, by rw [hgbfield, hgbval], ?_⟩
  constructor
  · intro hex
    rcases hex with ⟨s, hs, hsw⟩
    intro hnil
    have := parts_no_group hjout hoout hnil s hs
    rw [hsw] at this
    cases this
  · intro hne
    refine ⟨"GROUP BY " ++ String.intercalate ", " out.qp.group_by,
      group_clause_mem hne, ?_⟩
    have h8 : ("GROUP BY" : String).toList.length ≤ ("GROUP BY " : String).toList.length := by
      decide
    rw [strStartsWith_append_left _ _ _ h8]
    decide

/-- Claim C7 witness: the shared-mandatory-field configuration. -/
theorem group_by_emission_witness :
    buildPhase cfgB pAggB = Except.ok outAggB ∧
    (∃ mainJ, determine_main_table (joinSet cfgB pAggB) = Except.ok mainJ ∧
      outAggB.qp.select = selectItemsFinal pAggB (joinSet cfgB pAggB) mainJ ∧
      outAggB.qp.group_by =
        (if pAggB.is_aggregated
            && hasAggregates (selectItemsFinal pAggB (joinSet cfgB pAggB) mainJ)
         then buildGroupByItems pAggB (joinSet cfgB pAggB) mainJ else []) ∧
      ((∃ s ∈ construct_final_query_parts outAggB.qp,
          strStartsWith s "GROUP BY" = true) ↔ outAggB.qp.group_by ≠ [])) :=
  ⟨by decide, group_by_emission cfgB pAggB outAggB (by decide)⟩

/-- Claim C7 counterexample: (a) an aggregated request whose SELECT has an
aggregate call but whose query has no GROUP BY clause at all (the computed
item list is empty); (b) mandatory fields shared between joined tables are
not de-duplicated (GROUP BY k, k); (c) the contents start with the mandatory
fields of the lowest-priority joined table t2, not those of the FROM-anchor
main table t1. -/
theorem group_by_claim_counterexample :
    (pAggA.is_aggregated = true ∧
     buildPhase cfgA pAggA = Except.ok outAggA ∧
     hasAggregates outAggA.qp.select = true ∧
     outAggA.qp.group_by = [] ∧
     (∀ s ∈ construct_final_query_parts outAggA.qp, strStartsWith s "GROUP BY" = false)) ∧
    (buildPhase cfgB pAggB = Except.ok outAggB ∧ outAggB.qp.group_by = ["k", "k"]) ∧
    (buildPhase cfgC pAggC = Except.ok outAggC ∧ outAggC.qp.fromT = "t1" ∧
     outAggC.qp.group_by = ["m2", "m1"] ∧ outAggC.qp.group_by ≠ ["m1", "m2"]) := by
  refine ⟨⟨by decide, by decide, by decide, by decide, by decide⟩,
    ⟨by decide, by decide⟩, ⟨by decide, by decide, by decide, by decide⟩⟩

end DynSql
